import Mathlib

/-!
Verification of the wg-quickrs-router control plane: a shallow embedding of
the Rust sources (mode controller, persistence, policy-based-routing engine,
health monitor, config mutation handler) together with theorems settling the
specification claims.

Modelling conventions, used throughout:
* UUIDs are modelled as natural numbers (only equality and ordering matter);
  the Rust code sometimes stringifies UUIDs for use as JSON map keys, which
  is an injective transport that we elide by keying maps by the UUID itself.
* IPv4 addresses are the 32-bit numeric value (a `Nat`); textual rendering
  follows the dotted-quad `Display` implementation.
* `HashMap`/`BTreeMap` become association lists with `lookupA`/`insertA`.
* I/O and shell commands (`ip`, `wg`, `sysctl`) are modelled as operations on
  an explicit state record, with the primitive always succeeding; branches of
  the Rust code that only fire on subprocess failure are therefore absent.
-/

set_option maxHeartbeats 1000000
set_option maxRecDepth 8000

namespace WgQuickrs

/-- A peer UUID, modelled as a natural number. -/
abbrev Uuid := Nat

/-- An IPv4 address as its 32-bit numeric value. -/
abbrev Ipv4 := Nat

/-- Association-list lookup (model of `HashMap::get` / `BTreeMap::get`). -/
def lookupA {α β : Type} [DecidableEq α] : List (α × β) → α → Option β
  | [], _ => none
  | (k2, v) :: rest, k => if k2 = k then some v else lookupA rest k

/-- Association-list insert-or-replace (model of `HashMap::insert`). -/
def insertA {α β : Type} [DecidableEq α] : List (α × β) → α → β → List (α × β)
  | [], k, v => [(k, v)]
  | (k2, v2) :: rest, k, v =>
      if k2 = k then (k, v) :: rest else (k2, v2) :: insertA rest k v

/-- Association-list key removal (model of `HashMap::remove`). -/
def eraseA {α β : Type} [DecidableEq α] : List (α × β) → α → List (α × β)
  | [], _ => []
  | (k2, v2) :: rest, k => if k2 = k then rest else (k2, v2) :: eraseA rest k

/-- Dotted-quad rendering of an IPv4 address (the `Display` of `Ipv4Addr`). -/
def ipv4ToString (a : Ipv4) : String :=
  Nat.repr (a / 16777216 % 256) ++ "." ++ Nat.repr (a / 65536 % 256) ++ "." ++
    Nat.repr (a / 256 % 256) ++ "." ++ Nat.repr (a % 256)

/-- An IPv4 CIDR (`ipnet::Ipv4Net`): address plus routing-prefix length. -/
structure Ipv4Net where
  addr : Ipv4
  prefixLen : Nat
deriving DecidableEq, Repr

/-- Rendering of an `Ipv4Net` (the crate's `Display`: `a.b.c.d/len`). -/
def cidrToString (n : Ipv4Net) : String :=
  ipv4ToString n.addr ++ "/" ++ Nat.repr n.prefixLen

/-- `format!("{}/32", peer.address)` as used for per-peer host routes. -/
def addr32String (a : Ipv4) : String :=
  ipv4ToString a ++ "/32"

/-- Lexicographic order on character lists, modelling the byte-wise `Ord`
of Rust strings (UTF-8 byte order agrees with scalar-value order). -/
def charListLe : List Char → List Char → Bool
  | [], _ => true
  | _ :: _, [] => false
  | a :: as, b :: bs => if a < b then true else if b < a then false else charListLe as bs

/-- String order `a <= b` over the character data. -/
def strLe (a b : String) : Bool :=
  charListLe a.data b.data

/-- Stable insertion of `x` into a run of a sorted list. -/
def insertSorted {α : Type} (le : α → α → Bool) (x : α) : List α → List α
  | [] => [x]
  | y :: ys => if le x y then x :: y :: ys else y :: insertSorted le x ys

/-- Stable insertion sort, modelling `Vec::sort`. -/
def insertionSort {α : Type} (le : α → α → Bool) : List α → List α
  | [] => []
  | x :: xs => insertSorted le x (insertionSort le xs)

/-- Rust `str::to_lowercase`, modelled character-wise. -/
def strToLower (s : String) : String :=
  ⟨s.data.map Char.toLower⟩

/-- Rust `str::trim().is_empty()`: every character is whitespace. -/
def isBlank (s : String) : Bool :=
  s.data.all Char.isWhitespace

/-- Rust `str::trim` over the character data. -/
def trimChars (l : List Char) : List Char :=
  ((l.dropWhile Char.isWhitespace).reverse.dropWhile Char.isWhitespace).reverse

/-- Rust `str::split(sep)` over the character data (an empty input yields
one empty piece, as in Rust). -/
def splitOnChar (sep : Char) : List Char → List (List Char)
  | [] => [[]]
  | c :: rest =>
    let r := splitOnChar sep rest
    if c = sep then [] :: r
    else
      match r with
      | [] => [[c]]
      | h :: t => (c :: h) :: t

/-- Rust unsigned-integer `from_str`: decimal digits only. -/
def digitsToNat? (l : List Char) : Option Nat :=
  if l.isEmpty then none
  else if l.all Char.isDigit then
    some (l.foldl (fun acc c => acc * 10 + (c.toNat - 48)) 0)
  else none

/-- One octet of an IPv4 address string: digits only, no leading zero,
value at most 255 (the `Ipv4Addr` parser). -/
def parseOctet (l : List Char) : Option Nat :=
  if l.isEmpty then none
  else if l.length > 1 && l.head? == some '0' then none
  else match digitsToNat? l with
       | some n => if n ≤ 255 then some n else none
       | none => none

/-- `Ipv4Addr::from_str`: exactly four dot-separated octets. -/
def parseIpv4 (s : String) : Option Ipv4 :=
  match splitOnChar '.' s.data with
  | [a, b, c, d] => do
      let oa ← parseOctet a
      let ob ← parseOctet b
      let oc ← parseOctet c
      let od ← parseOctet d
      pure (((oa * 256 + ob) * 256 + oc) * 256 + od)
  | _ => none

/-- `Ipv4Net::from_str`: `addr/prefixLen` with the prefix length at most 32. -/
def ipv4NetFromStr (s : String) : Option Ipv4Net :=
  match splitOnChar '/' s.data with
  | [addrChars, lenChars] => do
      let a ← parseIpv4 ⟨addrChars⟩
      let p ← digitsToNat? lenChars
      if p ≤ 32 then pure ⟨a, p⟩ else none
  | _ => none

/-! ## System mode (`mode.rs`) -/

/-- The two system modes of `mode.rs`. -/
inductive SystemMode
  | Host
  | Router
deriving DecidableEq, Repr

/-- `impl From<&str> for SystemMode`: lowercased "router" maps to `Router`,
every other string maps to `Host`. -/
def SystemMode.fromStr (s : String) : SystemMode :=
  if strToLower s = "router" then SystemMode.Router else SystemMode.Host

/-! ## Persistent mode state (`persist.rs`) -/

/-- `PrefixState`: the active/backup peers owning a routed prefix. -/
structure PrefixState where
  active_peer_id : Uuid
  backup_peer_ids : List Uuid
deriving DecidableEq, Repr

/-- `ModeState`, the JSON-persisted router state of `persist.rs`. -/
structure ModeState where
  last_mode : SystemMode
  lan_cidr : Option String
  peer_table_ids : List (Uuid × Nat)
  prefix_active_backup : List (String × PrefixState)
  peer_first_handshake : List (Uuid × Nat)
  peer_last_online_state : List (Uuid × Bool)
  peer_last_successful_ping : List (Uuid × Nat)
  peer_lan_access : List (Uuid × Bool)
  auto_failover : Bool
  primary_exit_node : Option Uuid
deriving DecidableEq, Repr

/-- `PersistenceError` of `persist.rs`. -/
inductive PersistenceError
  | IoError (msg : String)
  | SerializationError (msg : String)
  | DeserializationError (msg : String)
deriving DecidableEq, Repr

/-- The state-file portion of the file system: main file and leftover temp
file, each either absent (`none`) or holding contents. -/
structure StateFileSystem where
  stateFile : Option String
  tempFile : Option String
deriving DecidableEq, Repr

/-- `load_mode_state` of `persist.rs`, modelled over the file-system state.
`parse` stands for `serde_json::from_str::<ModeState>` (external crate):
`none` means deserialization fails.  Returns the load result together with
the file system after the call.  I/O primitives (lock, open, read, remove)
are modelled as succeeding, so the `IoError` branches of the source are
absent; the interesting branches (absent, empty, corrupt) are all here. -/
def load_mode_state (parse : String → Option ModeState) (fs : StateFileSystem) :
    Except PersistenceError (Option ModeState) × StateFileSystem :=
  -- clean up any leftover temp file from interrupted writes
  let fs := { fs with tempFile := none }
  match fs.stateFile with
  | none => (.ok none, fs)
  | some contents =>
    if isBlank contents then
      -- empty file: delete it for self-recovery and report no state
      (.ok none, { fs with stateFile := none })
    else
      match parse contents with
      | some state => (.ok (some state), fs)
      | none =>
        -- corrupt file: delete it for self-recovery and report no state
        (.ok none, { fs with stateFile := none })

/-! ## Routing-table allocation (`routing_pbr.rs`) -/

/-- `PolicyRoutingError` of `routing_pbr.rs`. -/
inductive PolicyRoutingError
  | TableIdError (msg : String)
  | IpRuleError (msg : String)
  | RouteInstallationError (msg : String)
  | PersistenceError (msg : String)
deriving DecidableEq, Repr

/-- The body of the linear-probe loop of `create_peer_routing_table`:
`while table_id <= 9999 { if !used.contains(table_id) { break; } table_id += 1; }`,
with explicit fuel (the loop runs at most 9001 times). -/
def probeTableId (used : List Nat) : Nat → Nat → Nat
  | 0, table_id => table_id
  | fuel + 1, table_id =>
    if table_id > 9999 then table_id
    else if used.contains table_id then probeTableId used fuel (table_id + 1)
    else table_id

/-- The linear probe of `create_peer_routing_table`: starting at 1000, walk
up while the candidate is used and at most 9999; the result is the first
free ID in `[1000, 9999]`, or 10000 when every ID in the range is taken. -/
def findFreeTableId (used : List Nat) : Nat :=
  probeTableId used 9001 1000

/-- `create_peer_routing_table`: return the existing table ID for the peer
if one is persisted, otherwise allocate the first free ID in `[1000, 9999]`
and persist the new mapping; error when no mode state exists or when all
9000 IDs are taken.  Result: allocated ID and the mode state after the
call. -/
def create_peer_routing_table (state? : Option ModeState) (peer_id : Uuid) :
    Except PolicyRoutingError (Nat × ModeState) :=
  match state? with
  | none => .error (.PersistenceError "No mode state found")
  | some state =>
    match lookupA state.peer_table_ids peer_id with
    | some existing_table_id => .ok (existing_table_id, state)
    | none =>
      let used := state.peer_table_ids.map Prod.snd
      let table_id := findFreeTableId used
      if table_id > 9999 then
        .error (.TableIdError "No available table IDs in range 1000-9999")
      else
        .ok (table_id,
          { state with peer_table_ids := insertA state.peer_table_ids peer_id table_id })

/-! ## Health monitor (`routing_pbr.rs`) -/

def CONSECUTIVE_FAILURES_THRESHOLD : Nat := 3

def PING_HISTORY_SIZE : Nat := 60

/-- `u32::MAX`, the saturation bound of `saturating_add`. -/
def U32_MAX : Nat := 4294967295

/-- The consecutive-failure update of `check_peer_health_impl_async`: a
successful ping resets the counter and reports online; a failed ping
increments the counter (saturating) and reports online while the counter is
still below the threshold.  Returns `(is_online, new_counter)`. -/
def healthStep (ping_succeeded : Bool) (failure_count : Nat) : Bool × Nat :=
  if ping_succeeded then (true, 0)
  else
    let fc := Nat.min (failure_count + 1) U32_MAX
    (decide (fc < CONSECUTIVE_FAILURES_THRESHOLD), fc)

/-- Run the health monitor over a trace of ping outcomes for one peer,
starting from a fresh counter (`or_insert(0)`); the first component is the
online status reported at the most recent tick (`none` for an empty trace),
the second is the counter. -/
def runHealth (pings : List Bool) : Option Bool × Nat :=
  pings.foldl
    (fun acc ping_ok =>
      let r := healthStep ping_ok acc.2
      (some r.1, r.2))
    (none, 0)

/-- The number of most recent consecutive failed pings in a trace. -/
def trailingFailures (pings : List Bool) : Nat :=
  (pings.reverse.takeWhile (fun b => b = false)).length

/-- The packet-loss half of `calculate_loss_and_jitter`, computed over the
rationals: `(failed pings / total pings) * 100`, or `none` for an empty
history.  A history entry is `none` when the ping was lost (`latency_ms` of
`PingResult`). -/
def calculate_loss (history : List (Option Nat)) : Option ℚ :=
  if history.isEmpty then none
  else
    some (((history.filter (fun r => r.isNone)).length : ℚ)
            / (history.length : ℚ) * 100)

/-- Pushing one ping result into the per-peer ring buffer: append, then pop
from the front while the length exceeds `PING_HISTORY_SIZE`. -/
def pushPingHistory (history : List (Option Nat)) (r : Option Nat) :
    List (Option Nat) :=
  let h2 := history ++ [r]
  h2.drop (h2.length - PING_HISTORY_SIZE)

/-! ## Network data model (`wg-quickrs-lib` types, per spec section 3 and
the usages in `api.rs` / `helpers.rs`) -/

/-- Endpoint address variant of a peer. -/
inductive EndpointAddress
  | none
  | ipv4AndPort (ipv4 : Ipv4) (port : Nat)
  | hostnameAndPort (hostname : String) (port : Nat)
deriving DecidableEq, Repr

structure Endpoint where
  enabled : Bool
  address : EndpointAddress
deriving DecidableEq, Repr

structure Dns where
  enabled : Bool
  addresses : List Ipv4
deriving DecidableEq, Repr

structure Mtu where
  enabled : Bool
  value : Nat
deriving DecidableEq, Repr

structure Script where
  enabled : Bool
  script : String
deriving DecidableEq, Repr

structure Scripts where
  pre_up : List Script
  post_up : List Script
  pre_down : List Script
  post_down : List Script
deriving DecidableEq, Repr

/-- A network peer (the `Peer` type of the library). -/
structure Peer where
  name : String
  address : Ipv4
  endpoint : Endpoint
  kind : String
  icon : String
  dns : Dns
  mtu : Mtu
  scripts : Scripts
  private_key : Nat
  created_at : Nat
  updated_at : Nat
deriving DecidableEq, Repr

/-- Canonical unordered pair of peer IDs (`ConnectionId`): the larger UUID
sits in slot `a`, the smaller in `b`. -/
structure ConnectionId where
  a : Uuid
  b : Uuid
deriving DecidableEq, Repr

/-- `ConnectionId::contains`. -/
def ConnectionId.contains (cid : ConnectionId) (peer_id : Uuid) : Bool :=
  cid.a == peer_id || cid.b == peer_id

structure PersistentKeepalive where
  enabled : Bool
  period : Nat
deriving DecidableEq, Repr

/-- A pairwise connection between two peers. -/
structure Connection where
  enabled : Bool
  pre_shared_key : Nat
  persistent_keepalive : PersistentKeepalive
  allowed_ips_a_to_b : List Ipv4Net
  allowed_ips_b_to_a : List Ipv4Net
deriving DecidableEq, Repr

/-- An IP-address reservation (`ReservationData`). -/
structure ReservationData where
  peer_id : Uuid
  valid_until : Nat
deriving DecidableEq, Repr

/-- The network model (`Network`). -/
structure Network where
  name : String
  subnet : Ipv4Net
  this_peer : Uuid
  peers : List (Uuid × Peer)
  connections : List (ConnectionId × Connection)
  reservations : List (Ipv4 × ReservationData)
  updated_at : Nat
deriving DecidableEq, Repr

/-- `remove_expired_reservations` of the library helpers: keep only the
reservations whose `valid_until` is still in the future. -/
def remove_expired_reservations (net : Network) (now : Nat) : Network :=
  { net with reservations :=
      net.reservations.filter (fun r => decide (now < r.2.valid_until)) }

/-- Modelled from the spec: the WireGuard public key is derived from the
private key by X25519 (external crate `x25519_dalek`, out of this
repository); the derivation is injective, which is all the development
relies on, so it is modelled as the identity tagging of the key value. -/
def wg_public_key_from_private_key (private_key : Nat) : Nat :=
  private_key

/-! ## Canonical WireGuard config (`wg-quickrs-lib/src/helpers.rs`) -/

inductive WireGuardLibError
  | PeerNotFound (peer_id : Uuid)
deriving DecidableEq, Repr

/-- The allowed-IP filter of `get_peer_wg_config`: drop every entry whose
rendering is `0.0.0.0/0` or `default`. -/
def keepAllowedIp (ip : Ipv4Net) : Bool :=
  (cidrToString ip != "0.0.0.0/0") && (cidrToString ip != "default")

/-- The `AllowedIPs` entries emitted for one `[Peer]` section: the filtered
directed list, or the other side's `address/32` when filtering emptied it. -/
def sectionAllowedIps (allowed_ips : List Ipv4Net) (other_address : Ipv4) :
    List String :=
  let filtered := allowed_ips.filter keepAllowedIp
  let filtered2 :=
    if filtered.isEmpty then [Ipv4Net.mk other_address 32] else filtered
  filtered2.map cidrToString

/-- One `[Peer]` section of the produced WireGuard config. -/
structure WgPeerSection where
  other_peer_id : Uuid
  public_key : Nat
  pre_shared_key : Nat
  allowed_ips : List String
  persistent_keepalive : Option Nat
  endpoint : Option String
deriving DecidableEq, Repr

/-- The `[Interface]` section of the produced WireGuard config. -/
structure WgInterfaceSection where
  private_key : Nat
  address : Option String
  listen_port : Option Nat
  dns : Option (List Ipv4)
  mtu : Option Nat
deriving DecidableEq, Repr

/-- The produced WireGuard config, structured. -/
structure WgConf where
  interface : WgInterfaceSection
  peer_sections : List WgPeerSection
deriving DecidableEq, Repr

/-- The `[Peer]`-section loop of `get_peer_wg_config`: one section per
enabled connection containing `peer_id`, in map order; the other endpoint
must exist in `peers`. -/
def wgPeerSectionsAux (net : Network) (peer_id : Uuid) :
    List (ConnectionId × Connection) → Except WireGuardLibError (List WgPeerSection)
  | [] => .ok []
  | (cid, conn) :: rest =>
    if ¬ cid.contains peer_id then wgPeerSectionsAux net peer_id rest
    else if ¬ conn.enabled then wgPeerSectionsAux net peer_id rest
    else
      let dir : Uuid × List Ipv4Net :=
        if cid.a = peer_id then (cid.b, conn.allowed_ips_a_to_b)
        else (cid.a, conn.allowed_ips_b_to_a)
      match lookupA net.peers dir.1 with
      | none => .error (.PeerNotFound peer_id)
      | some other =>
        match wgPeerSectionsAux net peer_id rest with
        | .error e => .error e
        | .ok tail =>
          .ok ({ other_peer_id := dir.1
                 public_key := wg_public_key_from_private_key other.private_key
                 pre_shared_key := conn.pre_shared_key
                 allowed_ips := sectionAllowedIps dir.2 other.address
                 persistent_keepalive :=
                   if conn.persistent_keepalive.enabled
                   then some conn.persistent_keepalive.period else none
                 endpoint :=
                   if other.endpoint.enabled then
                     match other.endpoint.address with
                     | .ipv4AndPort ip port =>
                         some (ipv4ToString ip ++ ":" ++ Nat.repr port)
                     | .hostnameAndPort host port =>
                         some (host ++ ":" ++ Nat.repr port)
                     | .none => none
                   else none } :: tail)

/-- `get_peer_wg_config` of `wg-quickrs-lib/src/helpers.rs`, producing the
structured form of the emitted text: the `[Interface]` section (reduced to
`PrivateKey` and `ListenPort` when `stripped`) followed by one `[Peer]`
section per enabled connection containing the peer. -/
def get_peer_wg_config (net : Network) (peer_id : Uuid) (stripped : Bool) :
    Except WireGuardLibError WgConf :=
  match lookupA net.peers peer_id with
  | none => .error (.PeerNotFound peer_id)
  | some this_peer =>
    match wgPeerSectionsAux net peer_id net.connections with
    | .error e => .error e
    | .ok sections =>
      .ok
        { interface :=
            { private_key := this_peer.private_key
              address :=
                if ¬ stripped then some (ipv4ToString this_peer.address ++ "/24")
                else none
              listen_port :=
                if this_peer.endpoint.enabled then
                  match this_peer.endpoint.address with
                  | .ipv4AndPort _ port => some port
                  | .hostnameAndPort _ port => some port
                  | .none => none
                else none
              dns :=
                if ¬ stripped ∧ this_peer.dns.enabled
                then some this_peer.dns.addresses else none
              mtu :=
                if ¬ stripped ∧ this_peer.mtu.enabled
                then some this_peer.mtu.value else none }
          peer_sections := sections }

/-! ## Mode controller (`mode.rs`, `ui_mode.rs`) -/

/-- `ModeError` of `mode.rs`. -/
inductive ModeError
  | PeersExist
  | InvalidCidr (msg : String)
  | RoutingError (msg : String)
  | PersistenceError (msg : String)
  | ConfigError (msg : String)
deriving DecidableEq, Repr

/-- The `thiserror` display strings of `ModeError`. -/
def ModeError.message : ModeError → String
  | .PeersExist => "Cannot switch mode: peers are configured"
  | .InvalidCidr m => "Invalid LAN CIDR: " ++ m
  | .RoutingError m => "Routing error: " ++ m
  | .PersistenceError m => "Persistence error: " ++ m
  | .ConfigError m => "Config error: " ++ m

/-- `validate_cidr` of `mode.rs`: the string must parse as an `Ipv4Net`. -/
def validate_cidr (cidr : String) : Except ModeError Unit :=
  match ipv4NetFromStr cidr with
  | some _ => .ok ()
  | none => .error (.InvalidCidr ("Invalid CIDR format " ++ cidr))

/-- `parse_lan_cidrs` of `helpers.rs`: split at commas, trim, drop empties. -/
def parse_lan_cidrs (lan_cidr : String) : List String :=
  (((splitOnChar ',' lan_cidr.data).map (fun l => String.mk (trimChars l)))).filter
    (fun s => ¬ s.isEmpty)

/-- The slice of the world that `switch_mode` touches: the config file's
router section, the peer count of the network, the persisted mode state and
the `ip_forward` sysctl.  Shell commands are modelled as succeeding. -/
structure SwitchWorld where
  config_mode : String
  config_lan_cidr : Option String
  peers_count : Nat
  mode_state : Option ModeState
  ip_forward : Bool
deriving DecidableEq, Repr

/-- The fresh `ModeState` persisted by the Host-to-Router switch. -/
def freshRouterState (cidr : String) : ModeState :=
  { last_mode := .Router
    lan_cidr := some cidr
    peer_table_ids := []
    prefix_active_backup := []
    peer_first_handshake := []
    peer_last_online_state := []
    peer_last_successful_ping := []
    peer_lan_access := []
    auto_failover := false
    primary_exit_node := none }

/-- `update_lan_cidr` of `mode.rs`: validate every comma-separated CIDR,
then update the persisted state and the config (firewall re-application and
exit-node re-assertion only touch kernel state and log on failure). -/
def update_lan_cidr (w : SwitchWorld) (new_cidr : String) :
    Except ModeError SwitchWorld :=
  match (parse_lan_cidrs new_cidr).find? (fun c => (ipv4NetFromStr c).isNone) with
  | some bad => .error (.InvalidCidr ("Invalid CIDR format " ++ bad))
  | none =>
    match w.mode_state with
    | none => .error (.PersistenceError "No mode state found")
    | some st =>
      .ok { w with
              mode_state := some { st with lan_cidr := some new_cidr }
              config_mode := "router"
              config_lan_cidr := some new_cidr }

/-- `switch_mode` of `mode.rs`.  A Router-to-Router call is a LAN-CIDR
update; otherwise more than one peer blocks the switch; the Host-to-Router
path requires a valid LAN CIDR and persists a fresh state (per-peer table
creation inside that path skips `this_peer` and is reached only with at
most one peer, so it leaves the persisted state unchanged); the
Router-to-Host path clears state and forwarding. -/
def switch_mode (w : SwitchWorld) (target_mode : SystemMode)
    (lan_cidr : Option String) : Except ModeError SwitchWorld :=
  let current_mode := SystemMode.fromStr w.config_mode
  if current_mode = target_mode ∧ target_mode = SystemMode.Router then
    match lan_cidr with
    | some new_cidr => update_lan_cidr w new_cidr
    | none => .ok w
  else if w.peers_count > 1 then
    .error .PeersExist
  else
    match target_mode with
    | .Router =>
      match lan_cidr with
      | none => .error (.InvalidCidr "LAN CIDR is required for Router Mode")
      | some cidr =>
        match validate_cidr cidr with
        | .error e => .error e
        | .ok _ =>
          .ok { w with
                  ip_forward := true
                  mode_state := some (freshRouterState cidr)
                  config_mode := "router"
                  config_lan_cidr := some cidr }
    | .Host =>
      .ok { w with
              ip_forward := false
              mode_state := none
              config_mode := "host"
              config_lan_cidr := none }

/-- The error-to-status mapping of `toggle_mode` in `ui_mode.rs`: 403 when
the display string contains "peers are configured", 500 otherwise. -/
def toggle_mode_error_status (e : ModeError) : Nat :=
  if "peers are configured".toList <:+: e.message.toList then 403 else 500

/-! ## Policy-based-routing engine (`routing_pbr.rs`) -/

/-- A kernel `ip rule` as the engine sees it (`ParsedRule`): `table = none`
stands for `lookup main`. -/
structure IpRule where
  priority : Nat
  src : Option String
  dst : Option String
  iif : Option String
  table : Option Nat
deriving DecidableEq, Repr

/-- A kernel route entry `ip route ... dev ... table ...`. -/
structure RouteEntry where
  table : Nat
  cidr : String
  dev : String
deriving DecidableEq, Repr

/-- The kernel and WireGuard state the PBR engine mutates, plus the persisted
mode state.  `wgAllowedIps` maps a peer's public key to its allowed-ips list
(`wg set <iface> peer <pub> allowed-ips <list>` replaces the entry). -/
structure Sys where
  modeState : Option ModeState
  rules : List IpRule
  routes : List RouteEntry
  wgAllowedIps : List (Nat × List String)
deriving DecidableEq, Repr

/-- `ip rule del` by match criteria: remove the first rule with the given
`from`/`to`/`iif`/`lookup` attributes. -/
def ruleDel (rules : List IpRule) (src dst iif : Option String)
    (table : Option Nat) : List IpRule :=
  rules.eraseP (fun r =>
    r.src == src && r.dst == dst && r.iif == iif && r.table == table)

/-- `wg set <iface> peer <pub> allowed-ips <list>`. -/
def wgSet (wg : List (Nat × List String)) (public_key : Nat)
    (allowed_ips : List String) : List (Nat × List String) :=
  insertA wg public_key allowed_ips

/-- `ip route add`, falling back to `ip route replace` on `EEXIST`. -/
def routeAddOrReplace (routes : List RouteEntry) (table : Nat)
    (cidr dev : String) : List RouteEntry :=
  if routes.any (fun r => r.table == table && r.cidr == cidr) then
    routes.map (fun r =>
      if r.table == table && r.cidr == cidr then ⟨table, cidr, dev⟩ else r)
  else routes ++ [⟨table, cidr, dev⟩]

/-- `get_peer_advertised_routes`: the peer's own `address/32` plus, for every
connection containing the peer, the allowed-IPs advertised toward it;
deduplicated and sorted (the `HashSet` plus final `sort`). -/
def get_peer_advertised_routes (peer_id : Uuid) (net : Network) : List String :=
  let own : List String :=
    match lookupA net.peers peer_id with
    | some peer => [addr32String peer.address]
    | none => []
  let collected := net.connections.foldl
    (fun acc c =>
      if c.1.a = peer_id then acc ++ c.2.allowed_ips_b_to_a.map cidrToString
      else if c.1.b = peer_id then acc ++ c.2.allowed_ips_a_to_b.map cidrToString
      else acc)
    own
  insertionSort strLe collected.dedup

/-- `get_peers_with_default_route`: every peer other than `this_peer` whose
advertised routes include `0.0.0.0/0` or `default`, in map order. -/
def get_peers_with_default_route (net : Network) : List Uuid :=
  (net.peers.filter (fun p =>
    p.1 != net.this_peer &&
      (let routes := get_peer_advertised_routes p.1 net
       routes.contains "0.0.0.0/0" || routes.contains "default"))).map Prod.fst

/-- The directed view of a connection from `pid`: the other endpoint and the
allowed-IPs list chosen by `set_exit_node_impl` (`a_to_b` when `pid` is in
slot `a`, `b_to_a` otherwise). -/
def connDirection (cid : ConnectionId) (conn : Connection) (pid : Uuid) :
    Uuid × List Ipv4Net :=
  if cid.a = pid then (cid.b, conn.allowed_ips_a_to_b)
  else (cid.a, conn.allowed_ips_b_to_a)

/-- The first connection linking `pid` with `this_peer` whose directed other
end is `this_peer`, as scanned by `set_exit_node_impl`; yields the directed
allowed-IPs list. -/
def routerConnFor (net : Network) (pid : Uuid) : Option (List Ipv4Net) :=
  (net.connections.find? (fun c =>
      c.1.contains pid && c.1.contains net.this_peer &&
        ((connDirection c.1 c.2 pid).1 == net.this_peer))).map
    (fun c => (connDirection c.1 c.2 pid).2)

/-- The allowed-ips written back to a dethroned exit node: its own
`address/32` first, then the non-default routes of its connection to the
router, excluding the router's address and its own address. -/
def oldExitAllowedIps (net : Network) (old_id : Uuid) (old_peer : Peer) :
    List String :=
  let peer_addr := addr32String old_peer.address
  let router_addr :=
    match lookupA net.peers net.this_peer with
    | some p => addr32String p.address
    | none => "10.100.105.1/32"
  let extra :=
    match routerConnFor net old_id with
    | some ips =>
        (ips.map cidrToString).filter (fun s =>
          s != "0.0.0.0/0" && s != "default" && s != router_addr && s != peer_addr)
    | none => []
  peer_addr :: extra

/-- The allowed-ips written to the new exit node: the non-default routes of
its connection to the router (or its own `address/32` when that set is
empty) with `0.0.0.0/0` appended. -/
def newExitAllowedIps (net : Network) (pid : Uuid) (new_peer : Peer) :
    List String :=
  let current :=
    match routerConnFor net pid with
    | some ips =>
        (ips.map cidrToString).filter (fun s =>
          s != "0.0.0.0/0" && s != "default")
    | none => []
  let current2 :=
    if current.isEmpty then [addr32String new_peer.address] else current
  current2 ++ ["0.0.0.0/0"]

/-- The rule cleanup of `set_exit_node_impl` when the previous exit node used
a different table: drop its 20000+-band default-route rules, then the LAN
exception rules under the persisted LAN CIDRs. -/
def cleanupOldExitRules (rules : List IpRule) (old_table_id : Nat)
    (wg_interface wg_subnet : String) (state : ModeState) (net : Network)
    (lan_interface : String) : List IpRule :=
  let r1 := rules.filter (fun r =>
    ¬ (r.dst == some "0.0.0.0/0" && r.table == some old_table_id &&
        decide (r.priority ≥ 20000)))
  match state.lan_cidr with
  | none => r1
  | some lan_cidr_str =>
    (parse_lan_cidrs lan_cidr_str).foldl
      (fun acc lan_cidr =>
        let acc1 := ruleDel acc none (some lan_cidr) (some lan_interface) none
        let acc2 :=
          ruleDel acc1 (some wg_subnet) (some lan_cidr) (some wg_interface) none
        net.peers.foldl
          (fun acc3 p =>
            if p.1 = net.this_peer then acc3
            else
              ruleDel acc3 (some (addr32String p.2.address)) (some lan_cidr)
                (some wg_interface) none)
          acc2)
      r1

/-- The LAN-to-LAN exception priority computed by `set_exit_node_impl`:
`exception_priority - cidr_idx` where `exception_priority` is one below the
exit-node rule priority `20000 + table_id % 1000`. -/
def lan_exception_priority (table_id cidr_idx : Nat) : Nat :=
  (20000 + table_id % 1000 - 1) - cidr_idx

/-- The per-cidr body of the LAN-exception loop of `set_exit_node_impl`:
refresh the LAN-to-LAN exception rule, clear stale per-peer rules, then add
one per-peer LAN-access rule for every non-`this_peer` peer whose
`peer_lan_access` entry is absent or true, at priority
`base + cidr_idx * 100 + peer_index`. -/
def lanExceptionPhaseOneCidr (rules : List IpRule) (state : ModeState)
    (net : Network) (lan_interface wg_interface wg_subnet : String)
    (table_id cidr_idx : Nat) (lan_cidr : String) : List IpRule :=
  let priority := 20000 + table_id % 1000
  let exception_priority := priority - 1
  let wg_peer_lan_base_priority := exception_priority - 100
  let r1 := ruleDel rules none (some lan_cidr) (some lan_interface) none
  let r2 := r1 ++
    [⟨lan_exception_priority table_id cidr_idx, none, some lan_cidr,
      some lan_interface, none⟩]
  let r3 := ruleDel r2 (some wg_subnet) (some lan_cidr) (some wg_interface) none
  let r4 := r3.filter (fun r =>
    ¬ (r.iif == some wg_interface && r.dst == some lan_cidr && r.table == none &&
        decide (wg_peer_lan_base_priority ≤ r.priority) &&
        decide (r.priority < exception_priority)))
  let r5 := net.peers.foldl
    (fun acc p =>
      if p.1 = net.this_peer then acc
      else
        ruleDel acc (some (addr32String p.2.address)) (some lan_cidr)
          (some wg_interface) none)
    r4
  (net.peers.foldl
    (fun (acc : List IpRule × Nat) p =>
      if p.1 = net.this_peer then acc
      else
        let has_lan_access := (lookupA state.peer_lan_access p.1).getD true
        let acc2 :=
          if has_lan_access then
            acc.1 ++
              [⟨wg_peer_lan_base_priority + cidr_idx * 100 + acc.2,
                some (addr32String p.2.address), some lan_cidr,
                some wg_interface, none⟩]
          else acc.1
        (acc2, acc.2 + 1))
    (r5, 0)).1

/-- The whole LAN-exception loop over the enumerated LAN CIDRs. -/
def lanExceptionPhase (rules : List IpRule) (lan_cidrs : List String)
    (state : ModeState) (net : Network)
    (lan_interface wg_interface wg_subnet : String) (table_id : Nat) :
    List IpRule :=
  lan_cidrs.enum.foldl
    (fun acc p =>
      lanExceptionPhaseOneCidr acc state net lan_interface wg_interface
        wg_subnet table_id p.1 p.2)
    rules

/-- The exit-node rule refresh of `set_exit_node_impl`: drop stale
20000+-band rules of this table, then add the LAN-to-Internet rule at
`20000 + table_id % 1000` and the WG-peer-to-Internet rule one above it. -/
def exitRulesPhase (rules : List IpRule)
    (lan_interface wg_interface wg_subnet : String) (table_id : Nat) :
    List IpRule :=
  let priority := 20000 + table_id % 1000
  let r1 := rules.filter (fun r =>
    ¬ (r.iif == some lan_interface && r.dst == some "0.0.0.0/0" &&
        r.table == some table_id && decide (r.priority ≥ 20000)))
  let r2 := ruleDel r1 none (some "0.0.0.0/0") (some lan_interface) (some table_id)
  let r3 := r2 ++
    [⟨priority, none, some "0.0.0.0/0", some lan_interface, some table_id⟩]
  let r4 := r3.filter (fun r =>
    ¬ (r.src == some wg_subnet && r.iif == some wg_interface &&
        r.dst == some "0.0.0.0/0" && r.table == some table_id &&
        decide (r.priority ≥ 20000)))
  r4 ++
    [⟨priority + 1, some wg_subnet, some "0.0.0.0/0", some wg_interface,
      some table_id⟩]

/-- `set_exit_node_impl` of `routing_pbr.rs`, as a transformation of the
engine state (`lan_interface` stands for the `find_lan_interface` result;
every shell command succeeds). -/
def set_exit_node_impl (peer_id : Uuid) (net : Network)
    (lan_interface : String) (sys : Sys) : Except PolicyRoutingError Sys :=
  match sys.modeState with
  | none => .error (.PersistenceError "No mode state found")
  | some state =>
    match lookupA state.peer_table_ids peer_id with
    | none => .error (.TableIdError "No routing table found for peer")
    | some table_id =>
      let wg_interface := net.name
      let wg_subnet := cidrToString net.subnet
      -- table of the current exit node, if any
      let old_exit_node : Option Nat :=
        (lookupA state.prefix_active_backup "0.0.0.0/0").bind
          (fun ps => lookupA state.peer_table_ids ps.active_peer_id)
      let rules1 :=
        match old_exit_node with
        | some old_table_id =>
          if old_table_id ≠ table_id then
            cleanupOldExitRules sys.rules old_table_id wg_interface wg_subnet
              state net lan_interface
          else sys.rules
        | none => sys.rules
      -- rewrite the dethroned exit node's allowed-ips (before the state update)
      let old_active : Option Uuid :=
        (lookupA state.prefix_active_backup "0.0.0.0/0").map
          (fun ps => ps.active_peer_id)
      let wg1 :=
        match old_active with
        | some old_id =>
          if old_id ≠ peer_id then
            match lookupA net.peers old_id with
            | some old_peer =>
                wgSet sys.wgAllowedIps
                  (wg_public_key_from_private_key old_peer.private_key)
                  (oldExitAllowedIps net old_id old_peer)
            | none => sys.wgAllowedIps
          else sys.wgAllowedIps
        | none => sys.wgAllowedIps
      -- update and save the active/backup state
      let backup_peer_ids :=
        (get_peers_with_default_route net).filter (fun pid => pid ≠ peer_id)
      let state2 := { state with prefix_active_backup :=
        (insertA state.prefix_active_backup "0.0.0.0/0"
          ⟨peer_id, backup_peer_ids⟩) }
      -- LAN exception rules under the persisted LAN CIDRs
      let rules2 :=
        match state2.lan_cidr with
        | some lan_cidr_str =>
            lanExceptionPhase rules1 (parse_lan_cidrs lan_cidr_str) state2 net
              lan_interface wg_interface wg_subnet table_id
        | none => rules1
      -- default-route rules and route for the new exit table
      let rules3 := exitRulesPhase rules2 lan_interface wg_interface wg_subnet table_id
      let routes1 := routeAddOrReplace sys.routes table_id "0.0.0.0/0" wg_interface
      -- add 0.0.0.0/0 to the new exit node's allowed-ips
      match lookupA net.peers peer_id with
      | none => .error (.TableIdError "Peer not found in network")
      | some new_peer =>
        .ok { modeState := some state2
              rules := rules3
              routes := routes1
              wgAllowedIps :=
                wgSet wg1 (wg_public_key_from_private_key new_peer.private_key)
                  (newExitAllowedIps net peer_id new_peer) }

/-! ## Mutation API (`conf/respond.rs`) -/

/-- The `actix_web::HttpResponse` error classes used by
`patch_network_config`. -/
inductive HttpError
  | BadRequest (msg : String)
  | Forbidden (msg : String)
  | NotFound (msg : String)
  | Conflict (msg : String)
  | InternalServerError (msg : String)
deriving DecidableEq, Repr

/-- The HTTP status code of each error class. -/
def HttpError.status : HttpError → Nat
  | .BadRequest _ => 400
  | .Forbidden _ => 403
  | .NotFound _ => 404
  | .Conflict _ => 409
  | .InternalServerError _ => 500

/-- `OptionalScripts` of `api.rs`. -/
structure OptionalScripts where
  pre_up : Option (List Script)
  post_up : Option (List Script)
  pre_down : Option (List Script)
  post_down : Option (List Script)
deriving DecidableEq, Repr

/-- `OptionalPeer` of `api.rs`: the per-field peer patch. -/
structure OptionalPeer where
  name : Option String
  address : Option Ipv4
  endpoint : Option Endpoint
  kind : Option String
  icon : Option String
  dns : Option Dns
  mtu : Option Mtu
  scripts : Option OptionalScripts
  private_key : Option Nat
deriving DecidableEq, Repr

/-- `OptionalConnection` of `api.rs`. -/
structure OptionalConnection where
  enabled : Option Bool
  pre_shared_key : Option Nat
  persistent_keepalive : Option PersistentKeepalive
  allowed_ips_a_to_b : Option (List Ipv4Net)
  allowed_ips_b_to_a : Option (List Ipv4Net)
deriving DecidableEq, Repr

/-- `AddedPeer` of `api.rs`. -/
structure AddedPeer where
  name : String
  address : Ipv4
  endpoint : Endpoint
  kind : String
  icon : String
  dns : Dns
  mtu : Mtu
  scripts : Scripts
  private_key : Option Nat
deriving DecidableEq, Repr

/-- `ChangedFields` of `api.rs`. -/
structure ChangedFields where
  peers : Option (List (Uuid × OptionalPeer))
  connections : Option (List (ConnectionId × OptionalConnection))
deriving DecidableEq, Repr

/-- `ChangeSum` of `api.rs`: the one mutation payload. -/
structure ChangeSum where
  changed_fields : Option ChangedFields
  added_peers : Option (List (Uuid × AddedPeer))
  added_connections : Option (List (ConnectionId × Connection))
  removed_peers : Option (List Uuid)
  removed_connections : Option (List ConnectionId)
deriving DecidableEq, Repr

/-! Validators.  The validation module `wg_quickrs_lib::validation::network`
is code of this repository that is not under `src/` (only its callers are),
so these are modelled from the spec, section 4.2. -/

/-- Modelled from the spec: `parse_and_validate_peer_name` — peer name
non-empty and within a reasonable length (bounded here at 100 characters). -/
def parse_and_validate_peer_name (name : String) : Except String String :=
  if name.isEmpty then .error "peer name cannot be empty"
  else if name.length > 100 then .error "peer name too long"
  else .ok name

/-- Membership of an address in an IPv4 subnet: the network-prefix bits
agree. -/
def ipv4InSubnet (addr : Ipv4) (subnet : Ipv4Net) : Bool :=
  addr / 2 ^ (32 - subnet.prefixLen) == subnet.addr / 2 ^ (32 - subnet.prefixLen)

/-- Modelled from the spec: `validate_peer_address` — the address is an IPv4
within `network.subnet`, not already taken by a peer, and not reserved
(callers clear a self-reservation before validating). -/
def validate_peer_address (addr : Ipv4) (net : Network) : Except String Ipv4 :=
  if ¬ ipv4InSubnet addr net.subnet then .error "address not in network subnet"
  else if net.peers.any (fun p => p.2.address == addr) then
    .error "address already taken"
  else if (lookupA net.reservations addr).isSome then
    .error "address is reserved"
  else .ok addr

/-- Modelled from the spec: `validate_peer_endpoint` — `ipv4:port` or
`host:port` with a valid port. -/
def validate_peer_endpoint (e : Endpoint) : Except String Endpoint :=
  match e.address with
  | .none => .ok e
  | .ipv4AndPort _ port =>
      if 1 ≤ port ∧ port ≤ 65535 then .ok e else .error "invalid port"
  | .hostnameAndPort host port =>
      if host.isEmpty then .error "invalid host"
      else if 1 ≤ port ∧ port ≤ 65535 then .ok e else .error "invalid port"

/-- Modelled from the spec: `parse_and_validate_peer_kind` — the kind is a
plain string (no further constraint is specified). -/
def parse_and_validate_peer_kind (kind : String) : Except String String :=
  .ok kind

/-- Modelled from the spec: `validate_peer_icon` — the icon is a plain
string (no further constraint is specified). -/
def validate_peer_icon (icon : String) : Except String String :=
  .ok icon

/-- Modelled from the spec: `validate_peer_dns` — a list of IPv4 addresses
(well-typed here by construction). -/
def validate_peer_dns (d : Dns) : Except String Dns :=
  .ok d

/-- Modelled from the spec: `validate_peer_mtu` — MTU between 1280 and
1500. -/
def validate_peer_mtu (m : Mtu) : Except String Mtu :=
  if m.enabled ∧ ¬ (1280 ≤ m.value ∧ m.value ≤ 1500) then .error "invalid MTU"
  else .ok m

/-- Modelled from the spec: `validate_peer_scripts` — script lines are plain
strings. -/
def validate_peer_scripts (s : List Script) : Except String (List Script) :=
  .ok s

/-- Modelled from the spec: `validate_conn_persistent_keepalive` — keepalive
period between 1 and 65535. -/
def validate_conn_persistent_keepalive (k : PersistentKeepalive) :
    Except String PersistentKeepalive :=
  if k.enabled ∧ ¬ (1 ≤ k.period ∧ k.period ≤ 65535) then
    .error "invalid keepalive"
  else .ok k

/-- Replace the entry of `peer_id` in the peers map (a `get_mut` write). -/
def updatePeer (net : Network) (peer_id : Uuid) (f : Peer → Peer) : Network :=
  { net with peers :=
      (net.peers.map (fun p => if p.1 = peer_id then (p.1, f p.2) else p)) }

/-- Replace the entry of `cid` in the connections map. -/
def updateConnection (net : Network) (cid : ConnectionId)
    (f : Connection → Connection) : Network :=
  { net with connections :=
      (net.connections.map (fun c => if c.1 = cid then (c.1, f c.2) else c)) }

/-- `Peer::from(&AddedPeer)` with the caller's timestamping: absent private
keys are synthesized (`wg_generate_key`, modelled by the `generated_key`
argument) and `created_at = updated_at = now`. -/
def peerFromAdded (d : AddedPeer) (generated_key : Nat) (now : Nat) : Peer :=
  { name := d.name
    address := d.address
    endpoint := d.endpoint
    kind := d.kind
    icon := d.icon
    dns := d.dns
    mtu := d.mtu
    scripts := d.scripts
    private_key := d.private_key.getD generated_key
    created_at := now
    updated_at := now }

/-- The per-peer body of the `changed_fields.peers` loop of
`patch_network_config`.  Field validators run in source order and each
validated field is written into the shared in-memory network immediately
(the Rust code holds the global write guard and mutates through `get_mut`),
so an error carries the network as already mutated. -/
def patchChangedPeer (this_peer_id : Uuid) (net0 : Network) (peer_id : Uuid)
    (d : OptionalPeer) : Except (HttpError × Network) Network :=
  -- clone taken at the top of the loop body, used for address validation
  let network_for_validation := net0
  match lookupA net0.peers peer_id with
  | none => .error (.NotFound "peer does not exist", net0)
  | some _ => do
    let net1 ←
      match d.name with
      | none => .ok net0
      | some name =>
        match parse_and_validate_peer_name name with
        | .ok v => .ok (updatePeer net0 peer_id (fun p => { p with name := v }))
        | .error e =>
            .error (.BadRequest ("changed_fields.peers.name: " ++ e), net0)
    let net2 ←
      match d.address with
      | none => .ok net1
      | some addr =>
        let network_copy := { network_for_validation with peers :=
          (network_for_validation.peers.filter (fun p => p.1 ≠ peer_id)) }
        match validate_peer_address addr network_copy with
        | .ok v =>
            .ok (updatePeer net1 peer_id (fun p => { p with address := v }))
        | .error e =>
            .error (.BadRequest ("changed_fields.peers.address: " ++ e), net1)
    let net3 ←
      match d.endpoint with
      | none => .ok net2
      | some ep =>
        match validate_peer_endpoint ep with
        | .ok v =>
            .ok (updatePeer net2 peer_id (fun p => { p with endpoint := v }))
        | .error e =>
            .error (.BadRequest ("changed_fields.peers.endpoint: " ++ e), net2)
    let net4 ←
      match d.kind with
      | none => .ok net3
      | some kind =>
        match parse_and_validate_peer_kind kind with
        | .ok v => .ok (updatePeer net3 peer_id (fun p => { p with kind := v }))
        | .error e =>
            .error (.BadRequest ("changed_fields.peers.kind: " ++ e), net3)
    let net5 ←
      match d.icon with
      | none => .ok net4
      | some icon =>
        match validate_peer_icon icon with
        | .ok v => .ok (updatePeer net4 peer_id (fun p => { p with icon := v }))
        | .error e =>
            .error (.BadRequest ("changed_fields.peers.icon: " ++ e), net4)
    let net6 ←
      match d.dns with
      | none => .ok net5
      | some dns =>
        match validate_peer_dns dns with
        | .ok v => .ok (updatePeer net5 peer_id (fun p => { p with dns := v }))
        | .error e =>
            .error (.BadRequest ("changed_fields.peers.dns: " ++ e), net5)
    let net7 ←
      match d.mtu with
      | none => .ok net6
      | some mtu =>
        match validate_peer_mtu mtu with
        | .ok v => .ok (updatePeer net6 peer_id (fun p => { p with mtu := v }))
        | .error e =>
            .error (.BadRequest ("changed_fields.peers.mtu: " ++ e), net6)
    let net8 ←
      match d.private_key with
      | none => .ok net7
      | some pk =>
          .ok (updatePeer net7 peer_id (fun p => { p with private_key := pk }))
    match d.scripts with
    | none => .ok net8
    | some s =>
      -- security check: scripts of this_peer cannot be mutated remotely
      if peer_id = this_peer_id then
        .error (.Forbidden "cannot modify scripts for this peer remotely", net8)
      else do
        let net9 ←
          match s.pre_up with
          | none => .ok net8
          | some scr =>
            match validate_peer_scripts scr with
            | .ok v =>
                .ok (updatePeer net8 peer_id
                  (fun p => { p with scripts := { p.scripts with pre_up := v } }))
            | .error e =>
                .error (.BadRequest ("changed_fields.peers.scripts.pre_up: " ++ e), net8)
        let net10 ←
          match s.post_up with
          | none => .ok net9
          | some scr =>
            match validate_peer_scripts scr with
            | .ok v =>
                .ok (updatePeer net9 peer_id
                  (fun p => { p with scripts := { p.scripts with post_up := v } }))
            | .error e =>
                .error (.BadRequest ("changed_fields.peers.scripts.post_up: " ++ e), net9)
        let net11 ←
          match s.pre_down with
          | none => .ok net10
          | some scr =>
            match validate_peer_scripts scr with
            | .ok v =>
                .ok (updatePeer net10 peer_id
                  (fun p => { p with scripts := { p.scripts with pre_down := v } }))
            | .error e =>
                .error (.BadRequest ("changed_fields.peers.scripts.pre_down: " ++ e), net10)
        match s.post_down with
        | none => .ok net11
        | some scr =>
          match validate_peer_scripts scr with
          | .ok v =>
              .ok (updatePeer net11 peer_id
                (fun p => { p with scripts := { p.scripts with post_down := v } }))
          | .error e =>
              .error (.BadRequest ("changed_fields.peers.scripts.post_down: " ++ e), net11)

/-- The `changed_fields.peers` loop. -/
def processChangedPeers (this_peer_id : Uuid) :
    List (Uuid × OptionalPeer) → Network × Bool →
      Except (HttpError × Network) (Network × Bool)
  | [], acc => .ok acc
  | (pid, d) :: rest, (net, _) =>
    match patchChangedPeer this_peer_id net pid d with
    | .error e => .error e
    | .ok net2 => processChangedPeers this_peer_id rest (net2, true)

/-- The per-connection body of the `changed_fields.connections` loop:
`enabled`, key and allowed-IPs fields are written directly (validated at
deserialization); the keepalive is validated. -/
def patchChangedConnection (net0 : Network) (cid : ConnectionId)
    (d : OptionalConnection) : Except (HttpError × Network) Network :=
  match lookupA net0.connections cid with
  | none => .error (.NotFound "connection does not exist", net0)
  | some _ =>
    let net1 :=
      match d.enabled with
      | none => net0
      | some b => updateConnection net0 cid (fun c => { c with enabled := b })
    let net2 :=
      match d.pre_shared_key with
      | none => net1
      | some k =>
          updateConnection net1 cid (fun c => { c with pre_shared_key := k })
    let net3 :=
      match d.allowed_ips_a_to_b with
      | none => net2
      | some ips =>
          updateConnection net2 cid (fun c => { c with allowed_ips_a_to_b := ips })
    let net4 :=
      match d.allowed_ips_b_to_a with
      | none => net3
      | some ips =>
          updateConnection net3 cid (fun c => { c with allowed_ips_b_to_a := ips })
    match d.persistent_keepalive with
    | none => .ok net4
    | some k =>
      match validate_conn_persistent_keepalive k with
      | .ok v =>
          .ok (updateConnection net4 cid
            (fun c => { c with persistent_keepalive := v }))
      | .error e =>
          .error
            (.BadRequest ("changed_fields.connections.persistent_keepalive: " ++ e),
             net4)

/-- The `changed_fields.connections` loop. -/
def processChangedConnections :
    List (ConnectionId × OptionalConnection) → Network × Bool →
      Except (HttpError × Network) (Network × Bool)
  | [], acc => .ok acc
  | (cid, d) :: rest, (net, _) =>
    match patchChangedConnection net cid d with
    | .error e => .error e
    | .ok net2 => processChangedConnections rest (net2, true)

/-- The per-peer body of the `added_peers` loop: duplicate-ID and foreign
reservation rejections come first, then the self-reservation for the target
address is cleared from the shared network, then every validator runs; on
success the peer is inserted with fresh timestamps. -/
def patchAddedPeer (this_peer_id : Uuid) (net0 : Network) (peer_id : Uuid)
    (d : AddedPeer) (generated_key : Nat) (now : Nat) :
    Except (HttpError × Network) Network :=
  if (lookupA net0.peers peer_id).isSome then
    .error (.Forbidden "peer already exists", net0)
  else
    match lookupA net0.reservations d.address with
    | some value =>
      if value.peer_id ≠ peer_id then
        .error (.Forbidden "address is reserved for another peer_id", net0)
      else patchAddedPeerAfterReservation this_peer_id net0 peer_id d
            generated_key now
    | none =>
        patchAddedPeerAfterReservation this_peer_id net0 peer_id d
          generated_key now
where
  /-- The tail of the loop body, after the foreign-reservation rejection:
  clear the self-reservation, run the validators, insert the peer. -/
  patchAddedPeerAfterReservation (_this_peer_id : Uuid) (net0 : Network)
      (peer_id : Uuid) (d : AddedPeer) (generated_key : Nat) (now : Nat) :
      Except (HttpError × Network) Network :=
    -- take the address off the reservation list so the address check succeeds
    let net1 := { net0 with reservations :=
      (net0.reservations.filter (fun r => r.1 ≠ d.address)) }
    if d.name.isEmpty then
      .error (.BadRequest "added_peers.name: peer name cannot be empty", net1)
    else
      match parse_and_validate_peer_name d.name with
      | .error e => .error (.BadRequest ("added_peers.name: " ++ e), net1)
      | .ok _ =>
        match validate_peer_address d.address net1 with
        | .error e => .error (.BadRequest ("added_peers.address: " ++ e), net1)
        | .ok _ =>
          match validate_peer_endpoint d.endpoint with
          | .error e => .error (.BadRequest ("added_peers.endpoint: " ++ e), net1)
          | .ok _ =>
            match parse_and_validate_peer_kind d.kind with
            | .error e => .error (.BadRequest ("added_peers.kind: " ++ e), net1)
            | .ok _ =>
              match validate_peer_icon d.icon with
              | .error e => .error (.BadRequest ("added_peers.icon: " ++ e), net1)
              | .ok _ =>
                match validate_peer_dns d.dns with
                | .error e => .error (.BadRequest ("added_peers.dns: " ++ e), net1)
                | .ok _ =>
                  match validate_peer_mtu d.mtu with
                  | .error e => .error (.BadRequest ("added_peers.mtu: " ++ e), net1)
                  | .ok _ =>
                    match validate_peer_scripts d.scripts.pre_up with
                    | .error e =>
                        .error (.BadRequest ("added_peers.scripts.pre_up: " ++ e), net1)
                    | .ok _ =>
                      match validate_peer_scripts d.scripts.post_up with
                      | .error e =>
                          .error (.BadRequest ("added_peers.scripts.post_up: " ++ e), net1)
                      | .ok _ =>
                        match validate_peer_scripts d.scripts.pre_down with
                        | .error e =>
                            .error (.BadRequest ("added_peers.scripts.pre_down: " ++ e), net1)
                        | .ok _ =>
                          match validate_peer_scripts d.scripts.post_down with
                          | .error e =>
                              .error (.BadRequest ("added_peers.scripts.post_down: " ++ e), net1)
                          | .ok _ =>
                            .ok { net1 with peers :=
                              (insertA net1.peers peer_id
                                (peerFromAdded d generated_key now)) }

/-- The `added_peers` loop (the routing side effects of STEP 4 touch only
kernel state, not the network model). -/
def processAddedPeers (this_peer_id : Uuid) (generated_key : Uuid → Nat)
    (now : Nat) :
    List (Uuid × AddedPeer) → Network × Bool →
      Except (HttpError × Network) (Network × Bool)
  | [], acc => .ok acc
  | (pid, d) :: rest, (net, _) =>
    match patchAddedPeer this_peer_id net pid d (generated_key pid) now with
    | .error e => .error e
    | .ok net2 => processAddedPeers this_peer_id generated_key now rest (net2, true)

/-- The `removed_peers` loop: removing `this_peer` is forbidden; otherwise
the peer and every connection containing it are deleted. -/
def processRemovedPeers (this_peer_id : Uuid) :
    List Uuid → Network × Bool → Except (HttpError × Network) (Network × Bool)
  | [], acc => .ok acc
  | pid :: rest, (net, _) =>
    if pid = this_peer_id then
      .error (.Forbidden "cannot remove this peer", net)
    else
      let net2 := { net with
        peers := eraseA net.peers pid
        connections := net.connections.filter (fun c => ¬ c.1.contains pid) }
      processRemovedPeers this_peer_id rest (net2, true)

/-- The `added_connections` loop: both endpoints must exist, the ID must be
fresh, loopbacks are forbidden, the keepalive is validated. -/
def processAddedConnections :
    List (ConnectionId × Connection) → Network × Bool →
      Except (HttpError × Network) (Network × Bool)
  | [], acc => .ok acc
  | (cid, d) :: rest, (net, _) =>
    if (lookupA net.peers cid.a).isNone then
      .error (.BadRequest "added_connections: peer_id does not exist", net)
    else if (lookupA net.peers cid.b).isNone then
      .error (.BadRequest "added_connections: peer_id does not exist", net)
    else if (lookupA net.connections cid).isSome then
      .error (.Forbidden "connection already exists", net)
    else if cid.a = cid.b then
      .error (.Forbidden "loopback connection detected", net)
    else
      match validate_conn_persistent_keepalive d.persistent_keepalive with
      | .error e =>
          .error (.BadRequest ("added_connections.persistent_keepalive: " ++ e), net)
      | .ok _ =>
        let net2 := { net with connections := insertA net.connections cid d }
        processAddedConnections rest (net2, true)

/-- The `removed_connections` loop: plain deletes. -/
def processRemovedConnections :
    List ConnectionId → Network × Bool →
      Except (HttpError × Network) (Network × Bool)
  | [], acc => .ok acc
  | cid :: rest, (net, _) =>
    let net2 := { net with connections := eraseA net.connections cid }
    processRemovedConnections rest (net2, true)

/-- `patch_network_config` of `conf/respond.rs` over the in-memory network
model.  `generated_key` models the CSPRNG of `wg_generate_key`.  The result
is the HTTP outcome together with the in-memory network after the request
(the Rust handler mutates the shared model through the held write guard, so
a request that fails mid-way leaves its earlier writes in place; the config
file and `sync_conf` are only reached on the success path). -/
def patch_network_config (now : Nat) (generated_key : Uuid → Nat)
    (cs : ChangeSum) (net0 : Network) : Except HttpError Unit × Network :=
  let this_peer_id := net0.this_peer
  let net := remove_expired_reservations net0 now
  let pass : Except (HttpError × Network) (Network × Bool) := do
    let acc1 ←
      match cs.changed_fields with
      | none => .ok (net, false)
      | some cf => do
        let accA ←
          match cf.peers with
          | none => .ok (net, false)
          | some l => processChangedPeers this_peer_id l (net, false)
        match cf.connections with
        | none => .ok accA
        | some l => processChangedConnections l accA
    let acc2 ←
      match cs.added_peers with
      | none => .ok acc1
      | some l => processAddedPeers this_peer_id generated_key now l acc1
    let acc3 ←
      match cs.removed_peers with
      | none => .ok acc2
      | some l => processRemovedPeers this_peer_id l acc2
    let acc4 ←
      match cs.added_connections with
      | none => .ok acc3
      | some l => processAddedConnections l acc3
    match cs.removed_connections with
    | none => .ok acc4
    | some l => processRemovedConnections l acc4
  match pass with
  | .error (e, netE) => (.error e, netE)
  | .ok (netF, changed) =>
    if ¬ changed then (.error (.BadRequest "nothing to update"), netF)
    else (.ok (), { netF with updated_at := now })

/-- Decidable equality of `Except` results. -/
instance {ε α : Type} [DecidableEq ε] [DecidableEq α] :
    DecidableEq (Except ε α) := fun a b =>
  match a, b with
  | .error e1, .error e2 =>
    if h : e1 = e2 then isTrue (by rw [h])
    else isFalse (fun hh => h (Except.error.inj hh))
  | .error _, .ok _ => isFalse (fun hh => Except.noConfusion hh)
  | .ok _, .error _ => isFalse (fun hh => Except.noConfusion hh)
  | .ok v1, .ok v2 =>
    if h : v1 = v2 then isTrue (by rw [h])
    else isFalse (fun hh => h (Except.ok.inj hh))

/-- A mode state with one persisted table mapping, `{5 ↦ 1000}`. -/
def c6State : ModeState :=
  { freshRouterState "192.168.1.0/24" with peer_table_ids := [(5, 1000)] }

/-- A mode state in which every table ID of `[1000, 9999]` is taken. -/
def c6FullState : ModeState :=
  { freshRouterState "192.168.1.0/24" with
      peer_table_ids := ((List.range 9000).map (fun i => (i, 1000 + i))) }

/-- The invariant of `ModeState.peerTableIds`: values pairwise distinct and
within `[1000, 9999]`. -/
def tableIdsInvariant (st : ModeState) : Prop :=
  (st.peer_table_ids.map Prod.snd).Nodup ∧
    ∀ v ∈ st.peer_table_ids.map Prod.snd, 1000 ≤ v ∧ v ≤ 9999

/-- A peer record with all optional machinery disabled. -/
def plainPeer (nm : String) (addr : Ipv4) (key : Nat) : Peer :=
  { name := nm
    address := addr
    endpoint := { enabled := false, address := .none }
    kind := "laptop"
    icon := ""
    dns := { enabled := false, addresses := [] }
    mtu := { enabled := false, value := 0 }
    scripts := { pre_up := [], post_up := [], pre_down := [], post_down := [] }
    private_key := key
    created_at := 0
    updated_at := 0 }

/-- Network for the C8 counterexample: router peer 1 and exit peer 2 in
`10.0.34.0/24`. -/
def c8Net : Network :=
  { name := "wg0"
    subnet := ⟨167780864, 24⟩
    this_peer := 1
    peers := [(1, plainPeer "router" 167780865 11),
              (2, plainPeer "exit" 167780866 22)]
    connections := []
    reservations := []
    updated_at := 0 }

/-- Engine state for the C8 counterexample: peer 2 holds table 1001, the
LAN CIDR list is `192.168.1.0/24` (so `cidrIdx = 0`). -/
def c8Sys : Sys :=
  { modeState := some { freshRouterState "192.168.1.0/24" with
      peer_table_ids := [(2, 1001)] }
    rules := []
    routes := []
    wgAllowedIps := [] }

/-- A concrete network for the WireGuard-config theorems: peer 2 and the
router linked by a connection advertising only `0.0.0.0/0` toward each
side. -/
def c3Net : Network :=
  { name := "wg0"
    subnet := ⟨167780864, 24⟩
    this_peer := 1
    peers := [(1, plainPeer "router" 167780865 11),
              (2, plainPeer "laptop" 167780866 22)]
    connections := [(⟨2, 1⟩,
      { enabled := true
        pre_shared_key := 77
        persistent_keepalive := ⟨false, 0⟩
        allowed_ips_a_to_b := [⟨0, 0⟩]
        allowed_ips_b_to_a := [⟨0, 0⟩] })]
    reservations := []
    updated_at := 0 }

/-- A network with a live foreign reservation: router peer 1 and laptop
peer 2 in `10.0.34.0/24`, with address `10.0.34.3` reserved for peer 7
until time 100. -/
def c9Net : Network :=
  { name := "wg0"
    subnet := ⟨167780864, 24⟩
    this_peer := 1
    peers := [(1, plainPeer "router" 167780865 11),
              (2, plainPeer "laptop" 167780866 22)]
    connections := []
    reservations := [(167780867, ⟨7, 100⟩)]
    updated_at := 0 }

/-- A mutation adding peer 3 at the reserved address `10.0.34.3`. -/
def c9ChangeSum : ChangeSum :=
  { changed_fields := none
    added_peers := some [(3,
      { name := "new"
        address := 167780867
        endpoint := { enabled := false, address := .none }
        kind := "laptop"
        icon := ""
        dns := { enabled := false, addresses := [] }
        mtu := { enabled := false, value := 0 }
        scripts := { pre_up := [], post_up := [], pre_down := [], post_down := [] }
        private_key := none })]
    added_connections := none
    removed_peers := none
    removed_connections := none }

/-- A mutation renaming peer 2 (valid) and then moving it to `0.0.0.0`,
which is outside the subnet, so the address validator fails. -/
def c1ChangeSum : ChangeSum :=
  { changed_fields := some
      { peers := some [(2,
          { name := some "renamed"
            address := some 0
            endpoint := none
            kind := none
            icon := none
            dns := none
            mtu := none
            scripts := none
            private_key := none })]
        connections := none }
    added_peers := none
    added_connections := none
    removed_peers := none
    removed_connections := none }

/-- The persisted router state for the exit-node switch example: peers 2
and 3 hold tables 1001 and 1002, and peer 3 is the current exit node. -/
def c2St : ModeState :=
  { freshRouterState "192.168.1.0/24" with
      peer_table_ids := [(2, 1001), (3, 1002)]
      prefix_active_backup := [("0.0.0.0/0", ⟨3, []⟩)] }

/-- A three-peer network for the exit-node switch example. -/
def c2Net : Network :=
  { name := "wg0"
    subnet := ⟨167780864, 24⟩
    this_peer := 1
    peers := [(1, plainPeer "router" 167780865 11),
              (2, plainPeer "exitTwo" 167780866 22),
              (3, plainPeer "exitThree" 167780867 33)]
    connections := []
    reservations := []
    updated_at := 0 }

/-- The engine state for the exit-node switch example. -/
def c2Sys : Sys :=
  { modeState := some c2St
    rules := []
    routes := []
    wgAllowedIps := [] }

/-! ## Helper lemmas -/

theorem lookupA_insertA_self {α β : Type} [DecidableEq α]
    (m : List (α × β)) (k : α) (v : β) :
    lookupA (insertA m k v) k = some v := by
  induction m with
  | nil => simp [insertA, lookupA]
  | cons hd tl ih =>
    by_cases h : hd.1 = k
    · simp [insertA, lookupA, h]
    · simp [insertA, lookupA, h, ih]

theorem lookupA_insertA_ne {α β : Type} [DecidableEq α]
    (m : List (α × β)) (k k2 : α) (v : β) (h : k2 ≠ k) :
    lookupA (insertA m k v) k2 = lookupA m k2 := by
  induction m with
  | nil => simp [insertA, lookupA, Ne.symm h]
  | cons hd tl ih =>
    obtain ⟨a, b⟩ := hd
    by_cases hk : a = k
    · subst hk
      simp [insertA, lookupA, Ne.symm h]
    · simp [insertA, lookupA, hk, ih]

theorem insertA_of_lookupA_none {α β : Type} [DecidableEq α]
    (m : List (α × β)) (k : α) (v : β) (h : lookupA m k = none) :
    insertA m k v = m ++ [(k, v)] := by
  induction m with
  | nil => simp [insertA]
  | cons hd tl ih =>
    by_cases hk : hd.1 = k
    · simp [lookupA, hk] at h
    · simp [lookupA, hk] at h
      simp [insertA, hk, ih h]

theorem lookupA_mem {α β : Type} [DecidableEq α] {m : List (α × β)} {k : α}
    {v : β} (h : lookupA m k = some v) : (k, v) ∈ m := by
  induction m with
  | nil => simp [lookupA] at h
  | cons hd tl ih =>
    obtain ⟨a, b⟩ := hd
    by_cases hk : a = k
    · subst hk
      simp [lookupA] at h
      subst h
      exact List.mem_cons_self _ _
    · simp [lookupA, hk] at h
      exact List.mem_cons_of_mem _ (ih h)

theorem lookupA_eq_none_of_not_mem {α β : Type} [DecidableEq α]
    {m : List (α × β)} {k : α} (h : k ∉ m.map Prod.fst) :
    lookupA m k = none := by
  induction m with
  | nil => rfl
  | cons hd tl ih =>
    obtain ⟨a, b⟩ := hd
    simp only [List.map_cons, List.mem_cons] at h
    push_neg at h
    simp only [lookupA, if_neg (Ne.symm h.1)]
    exact ih h.2

theorem string_append_32_ne (s : String) :
    s ++ "32" ≠ "0.0.0.0/0" ∧ s ++ "32" ≠ "default" := by
  constructor <;> intro h
  · have h2 : ((s ++ "32").data).getLast? = ("0.0.0.0/0".data).getLast? := by rw [h]
    rw [String.data_append, List.getLast?_append] at h2
    simp at h2
  · have h2 : ((s ++ "32").data).getLast? = ("default".data).getLast? := by rw [h]
    rw [String.data_append, List.getLast?_append] at h2
    simp at h2

theorem addr32String_ne (a : Ipv4) :
    addr32String a ≠ "0.0.0.0/0" ∧ addr32String a ≠ "default" := by
  have h : addr32String a = (ipv4ToString a ++ "/") ++ "32" := by
    simp [addr32String, String.append_assoc]
  rw [h]
  exact string_append_32_ne _

theorem cidrToString_32_ne (a : Ipv4) :
    cidrToString ⟨a, 32⟩ ≠ "0.0.0.0/0" ∧ cidrToString ⟨a, 32⟩ ≠ "default" := by
  have h : cidrToString ⟨a, 32⟩ = (ipv4ToString a ++ "/") ++ "32" := by
    simp [cidrToString, String.append_assoc]
    rfl
  rw [h]
  exact string_append_32_ne _

/-! ## Claim C10 -/

/-- Claim C10: `SystemMode::from(s)` returns `Router` exactly when `s`
equals "router" case-insensitively (its lowercasing is "router"), and every
other string — empty, misspelled or corrupted — silently yields `Host`
rather than raising an error. -/
theorem C10_system_mode_from (s : String) :
    (SystemMode.fromStr s = SystemMode.Router ↔ strToLower s = "router") ∧
      (strToLower s ≠ "router" → SystemMode.fromStr s = SystemMode.Host) := by
  unfold SystemMode.fromStr
  constructor
  · constructor
    · intro h
      by_contra hn
      simp [hn] at h
    · intro h
      simp [h]
  · intro h
    simp [h]

/-- Witness for C10 at concrete inputs: "RoUtEr" is Router, "hsot" is Host. -/
theorem C10_system_mode_from_witness :
    SystemMode.fromStr "RoUtEr" = SystemMode.Router ∧
      SystemMode.fromStr "hsot" = SystemMode.Host :=
  ⟨(C10_system_mode_from "RoUtEr").1.mpr (by decide),
   (C10_system_mode_from "hsot").2 (by decide)⟩

/-! ## Claim C7 -/

/-- Claim C7: `load_mode_state` returns `Ok(None)` — never an error — when
the state file is absent, empty, or fails JSON deserialization; in the empty
and corrupt cases the file is deleted (self-heal), leaving a fresh-start
file system. -/
theorem C7_load_mode_state_self_heal (parse : String → Option ModeState)
    (fs : StateFileSystem) :
    (fs.stateFile = none →
       load_mode_state parse fs = (.ok none, ⟨none, none⟩)) ∧
    (∀ s, fs.stateFile = some s → isBlank s →
       load_mode_state parse fs = (.ok none, ⟨none, none⟩)) ∧
    (∀ s, fs.stateFile = some s → ¬ isBlank s → parse s = none →
       load_mode_state parse fs = (.ok none, ⟨none, none⟩)) := by
  refine ⟨?_, ?_, ?_⟩
  · intro h
    simp [load_mode_state, h]
  · intro s hs hempty
    simp [load_mode_state, hs, hempty]
  · intro s hs hne hparse
    simp [load_mode_state, hs, hne, hparse]

/-- Witness for C7: the three self-healing cases at concrete file systems
(absent file, whitespace-only file, unparseable file). -/
theorem C7_load_mode_state_self_heal_witness :
    load_mode_state (fun _ => none) ⟨none, some "junk"⟩ = (.ok none, ⟨none, none⟩) ∧
    load_mode_state (fun _ => none) ⟨some "  \n", none⟩ = (.ok none, ⟨none, none⟩) ∧
    load_mode_state (fun _ => none) ⟨some "not json", none⟩ = (.ok none, ⟨none, none⟩) :=
  ⟨(C7_load_mode_state_self_heal (fun _ => none) ⟨none, some "junk"⟩).1 rfl,
   (C7_load_mode_state_self_heal (fun _ => none) ⟨some "  \n", none⟩).2.1 _ rfl (by decide),
   (C7_load_mode_state_self_heal (fun _ => none) ⟨some "not json", none⟩).2.2 _ rfl
     (by decide) rfl⟩

/-! ## Claim C6 -/

theorem probeTableId_unfold (used : List Nat) (n table_id : Nat) :
    probeTableId used (n + 1) table_id =
      (if table_id > 9999 then table_id
       else if used.contains table_id then probeTableId used n (table_id + 1)
       else table_id) := rfl

theorem probeTableId_spec (used : List Nat) :
    ∀ fuel start, start ≤ 10000 → start + fuel ≥ 10001 →
      (probeTableId used fuel start ≤ 9999 →
        start ≤ probeTableId used fuel start ∧
          probeTableId used fuel start ∉ used) ∧
      ((∀ t, start ≤ t → t ≤ 9999 → t ∈ used) →
        probeTableId used fuel start = 10000) := by
  intro fuel
  induction fuel with
  | zero => intro start h1 h2; omega
  | succ n ih =>
    intro start h1 h2
    by_cases hgt : start > 9999
    · have hstart : start = 10000 := by omega
      constructor
      · intro hle
        rw [probeTableId_unfold, if_pos hgt] at hle
        omega
      · intro _
        rw [probeTableId_unfold, if_pos hgt, hstart]
    · cases hc : used.contains start with
      | true =>
        have heq : probeTableId used (n + 1) start =
            probeTableId used n (start + 1) := by
          rw [probeTableId_unfold, if_neg hgt, hc]
          simp
        rw [heq]
        obtain ⟨ih1, ih2⟩ := ih (start + 1) (by omega) (by omega)
        constructor
        · intro hle
          obtain ⟨hge, hnot⟩ := ih1 hle
          exact ⟨by omega, hnot⟩
        · intro hall
          exact ih2 (fun t ht1 ht2 => hall t (by omega) ht2)
      | false =>
        have hnotmem : start ∉ used := by simpa using hc
        have heq : probeTableId used (n + 1) start = start := by
          rw [probeTableId_unfold, if_neg hgt, hc]
          simp
        rw [heq]
        constructor
        · intro _
          exact ⟨le_refl _, hnotmem⟩
        · intro hall
          exact absurd (hall start (le_refl _) (by omega)) hnotmem

theorem findFreeTableId_spec (used : List Nat) :
    (findFreeTableId used ≤ 9999 →
      1000 ≤ findFreeTableId used ∧ findFreeTableId used ∉ used) ∧
    ((∀ t, 1000 ≤ t → t ≤ 9999 → t ∈ used) → findFreeTableId used = 10000) := by
  obtain ⟨h1, h2⟩ := probeTableId_spec used 9001 1000 (by omega) (by omega)
  exact ⟨h1, h2⟩

/-- Claim C6: `create_peer_routing_table` (a) preserves the invariant that
`peerTableIds` values are pairwise distinct and lie in `[1000, 9999]`, and
the returned ID lies in that range; (b) returns the existing ID and leaves
the state unchanged when the peer already has a mapping; (c) fails with an
error when the peer has no mapping yet and all 9000 IDs are taken. -/
theorem C6_create_peer_routing_table (st : ModeState) (peer_id : Uuid) :
    (∀ tid st2, tableIdsInvariant st →
       create_peer_routing_table (some st) peer_id = .ok (tid, st2) →
       tableIdsInvariant st2 ∧ 1000 ≤ tid ∧ tid ≤ 9999) ∧
    (∀ tid0, lookupA st.peer_table_ids peer_id = some tid0 →
       create_peer_routing_table (some st) peer_id = .ok (tid0, st)) ∧
    (lookupA st.peer_table_ids peer_id = none →
     (∀ t, 1000 ≤ t → t ≤ 9999 → t ∈ st.peer_table_ids.map Prod.snd) →
       create_peer_routing_table (some st) peer_id =
         .error (.TableIdError "No available table IDs in range 1000-9999")) := by
  refine ⟨?_, ?_, ?_⟩
  · intro tid st2 hinv hok
    cases hlk : lookupA st.peer_table_ids peer_id with
    | some tid0 =>
      simp [create_peer_routing_table, hlk] at hok
      obtain ⟨h1, h2⟩ := hok
      have hmem : tid0 ∈ st.peer_table_ids.map Prod.snd :=
        List.mem_map_of_mem Prod.snd (lookupA_mem hlk)
      constructor
      · rw [← h2]
        exact hinv
      · rw [← h1]
        exact ⟨(hinv.2 tid0 hmem).1, (hinv.2 tid0 hmem).2⟩
    | none =>
      simp only [create_peer_routing_table, hlk] at hok
      obtain ⟨hfspec1, _⟩ := findFreeTableId_spec (st.peer_table_ids.map Prod.snd)
      have hins := insertA_of_lookupA_none st.peer_table_ids peer_id
        (findFreeTableId (st.peer_table_ids.map Prod.snd)) hlk
      revert hok hfspec1 hins
      generalize findFreeTableId (st.peer_table_ids.map Prod.snd) = f
      intro hok hfspec1 hins
      by_cases hgt : f > 9999
      · simp [hgt] at hok
      · simp only [hgt, if_false, Except.ok.injEq, Prod.mk.injEq] at hok
        obtain ⟨h1, h2⟩ := hok
        have hle : f ≤ 9999 := by omega
        obtain ⟨hge, hnotused⟩ := hfspec1 hle
        subst h1
        constructor
        · rw [← h2]
          constructor
          · simp only [hins, List.map_append, List.map_cons, List.map_nil]
            rw [List.nodup_append]
            refine ⟨hinv.1, List.nodup_singleton _, ?_⟩
            intro x hx hx2
            rw [List.mem_singleton] at hx2
            subst hx2
            exact hnotused hx
          · intro v hv
            simp only [hins, List.map_append, List.map_cons, List.map_nil,
              List.mem_append, List.mem_singleton] at hv
            cases hv with
            | inl h => exact hinv.2 v h
            | inr h => rw [h]; exact ⟨hge, hle⟩
        · exact ⟨hge, hle⟩
  · intro tid0 hlk
    simp [create_peer_routing_table, hlk]
  · intro hlk hall
    have hfree := (findFreeTableId_spec (st.peer_table_ids.map Prod.snd)).2 hall
    simp [create_peer_routing_table, hlk, hfree]

/-- Witness for C6 at concrete states: a fresh allocation for peer 7 next to
`{5 ↦ 1000}` yields 1001 and keeps the invariant; the existing mapping of
peer 5 is returned with the state unchanged; a fresh allocation in the full
state fails. -/
theorem C6_create_peer_routing_table_witness :
    (tableIdsInvariant
        { c6State with peer_table_ids := [(5, 1000), (7, 1001)] } ∧
      1000 ≤ 1001 ∧ 1001 ≤ 9999) ∧
    create_peer_routing_table (some c6State) 5 = .ok (1000, c6State) ∧
    create_peer_routing_table (some c6FullState) 9005 =
      .error (.TableIdError "No available table IDs in range 1000-9999") := by
  refine ⟨?_, ?_, ?_⟩
  · exact (C6_create_peer_routing_table c6State 7).1 1001
      { c6State with peer_table_ids := [(5, 1000), (7, 1001)] }
      (by constructor <;> decide) (by decide)
  · exact (C6_create_peer_routing_table c6State 5).2.1 1000 (by decide)
  · refine (C6_create_peer_routing_table c6FullState 9005).2.2 ?_ ?_
    · apply lookupA_eq_none_of_not_mem
      simp only [c6FullState, List.map_map, List.mem_map, Function.comp_apply,
        Prod.fst, List.mem_range]
      intro hmem
      obtain ⟨i, hi, hix⟩ := hmem
      have h9 : i = 9005 := hix
      rw [h9] at hi
      exact absurd hi (by decide)
    · intro t ht1 ht2
      simp only [c6FullState, List.map_map, List.mem_map, Function.comp_apply,
        Prod.snd, List.mem_range]
      refine ⟨t - 1000, by omega, ?_⟩
      show 1000 + (t - 1000) = t
      omega



/-! ## Claim C4 -/

/-- Claim C4: `switch_mode` rejects every transition between different
modes (Host to Router or Router to Host) with the `PeersExist` error —
mapped to HTTP 403 by `toggle_mode` — whenever the network contains more
than one peer, whereas a Router-to-Router call that only updates `lanCidr`
bypasses the peer-count check entirely and succeeds for any number of
peers (given well-formed CIDRs and a present mode state). -/
theorem C4_switch_mode_peers_exist (w : SwitchWorld) (target : SystemMode)
    (lan_cidr : Option String) :
    (SystemMode.fromStr w.config_mode ≠ target → w.peers_count > 1 →
       switch_mode w target lan_cidr = .error .PeersExist) ∧
    toggle_mode_error_status .PeersExist = 403 ∧
    (∀ c st, SystemMode.fromStr w.config_mode = .Router →
       w.mode_state = some st →
       (∀ s ∈ parse_lan_cidrs c, (ipv4NetFromStr s).isSome) →
       switch_mode w .Router (some c) =
         .ok { w with
                 mode_state := some { st with lan_cidr := some c }
                 config_mode := "router"
                 config_lan_cidr := some c }) := by
  refine ⟨?_, ?_, ?_⟩
  · intro hne hcount
    simp only [switch_mode]
    rw [if_neg (fun hc => hne hc.1), if_pos hcount]
  · decide
  · intro c st hcur hms hvalid
    have hfind : (parse_lan_cidrs c).find?
        (fun s => (ipv4NetFromStr s).isNone) = none := by
      rw [List.find?_eq_none]
      intro x hx
      have hs := hvalid x hx
      cases hopt : ipv4NetFromStr x with
      | none => rw [hopt] at hs; simp at hs
      | some y => simp [hopt]
    simp only [switch_mode]
    rw [if_pos ⟨hcur, trivial⟩]
    simp only [update_lan_cidr, hfind, hms]

/-- Witness for C4: with two peers, a Host-to-Router toggle is rejected
with `PeersExist` (status 403), while a Router-to-Router LAN-CIDR update on
a five-peer network succeeds. -/
theorem C4_switch_mode_peers_exist_witness :
    switch_mode ⟨"host", none, 2, none, false⟩ SystemMode.Router
        (some "192.168.1.0/24") = .error .PeersExist ∧
    toggle_mode_error_status .PeersExist = 403 ∧
    switch_mode
        ⟨"router", some "10.9.0.0/16", 5,
          some (freshRouterState "10.9.0.0/16"), true⟩
        SystemMode.Router (some "192.168.1.0/24,10.2.0.0/16") =
      .ok ⟨"router", some "192.168.1.0/24,10.2.0.0/16", 5,
        some { freshRouterState "10.9.0.0/16" with
                 lan_cidr := some "192.168.1.0/24,10.2.0.0/16" }, true⟩ :=
  ⟨(C4_switch_mode_peers_exist ⟨"host", none, 2, none, false⟩
      SystemMode.Router (some "192.168.1.0/24")).1 (by decide) (by decide),
   (C4_switch_mode_peers_exist ⟨"host", none, 2, none, false⟩
      SystemMode.Router (some "192.168.1.0/24")).2.1,
   (C4_switch_mode_peers_exist
      ⟨"router", some "10.9.0.0/16", 5,
        some (freshRouterState "10.9.0.0/16"), true⟩
      SystemMode.Router (some "192.168.1.0/24,10.2.0.0/16")).2.2
      "192.168.1.0/24,10.2.0.0/16" (freshRouterState "10.9.0.0/16")
      (by decide) rfl (by decide)⟩


/-! ## Claim C8 -/

theorem mem_foldl_ruleDelPeers (this_peer : Uuid) (lan_cidr wg_interface : String)
    (r : IpRule) (hsrc : r.src = none) :
    ∀ (ps : List (Uuid × Peer)) (acc : List IpRule), r ∈ acc →
      r ∈ ps.foldl
        (fun acc3 p =>
          if p.1 = this_peer then acc3
          else
            ruleDel acc3 (some (addr32String p.2.address)) (some lan_cidr)
              (some wg_interface) none)
        acc := by
  intro ps
  induction ps with
  | nil => intro acc h; exact h
  | cons hd tl ih =>
    intro acc h
    simp only [List.foldl_cons]
    by_cases hc : hd.1 = this_peer
    · rw [if_pos hc]
      exact ih acc h
    · rw [if_neg hc]
      apply ih
      simp only [ruleDel]
      refine (List.mem_eraseP_of_neg ?_).mpr h
      simp [hsrc]

theorem mem_foldl_addLanRules (this_peer : Uuid) (st : ModeState)
    (lan_cidr wg_interface : String) (base cidr_idx : Nat) (r : IpRule) :
    ∀ (ps : List (Uuid × Peer)) (acc : List IpRule × Nat), r ∈ acc.1 →
      r ∈ (ps.foldl
        (fun (acc : List IpRule × Nat) p =>
          if p.1 = this_peer then acc
          else
            let has_lan_access := (lookupA st.peer_lan_access p.1).getD true
            let acc2 :=
              if has_lan_access then
                acc.1 ++
                  [⟨base + cidr_idx * 100 + acc.2,
                    some (addr32String p.2.address), some lan_cidr,
                    some wg_interface, none⟩]
              else acc.1
            (acc2, acc.2 + 1))
        acc).1 := by
  intro ps
  induction ps with
  | nil => intro acc h; exact h
  | cons hd tl ih =>
    intro acc h
    simp only [List.foldl_cons]
    by_cases hc : hd.1 = this_peer
    · rw [if_pos hc]
      exact ih acc h
    · rw [if_neg hc]
      apply ih
      by_cases hl : (lookupA st.peer_lan_access hd.1).getD true
      · simp only [hl, if_true]
        exact List.mem_append_left _ h
      · simp only [hl, if_false]
        exact h

/-- Claim C8 (amended): the LAN-to-LAN exception rule
`iif <lanIface> to <lanCidr> lookup main` for the `cidrIdx`-th CIDR is
installed with priority `19999 + (tableId mod 1000) - cidrIdx`, not
`19999 - cidrIdx`; the rule with that priority is indeed emitted by the
LAN-exception phase of `set_exit_node_impl`. -/
theorem C8_lan_exception_priority_amended (state : ModeState) (net : Network)
    (lan_interface wg_interface wg_subnet lan_cidr : String)
    (table_id cidr_idx : Nat) (rules : List IpRule)
    (hiface : lan_interface ≠ wg_interface) :
    lan_exception_priority table_id cidr_idx
        = 19999 + table_id % 1000 - cidr_idx ∧
    (⟨lan_exception_priority table_id cidr_idx, none, some lan_cidr,
        some lan_interface, none⟩ : IpRule) ∈
      lanExceptionPhaseOneCidr rules state net lan_interface wg_interface
        wg_subnet table_id cidr_idx lan_cidr := by
  constructor
  · unfold lan_exception_priority
    omega
  · unfold lanExceptionPhaseOneCidr
    apply mem_foldl_addLanRules
    apply mem_foldl_ruleDelPeers _ _ _ _ rfl
    rw [List.mem_filter]
    constructor
    · simp only [ruleDel]
      refine (List.mem_eraseP_of_neg ?_).mpr ?_
      · simp
      · exact List.mem_append_right _ (List.mem_singleton.mpr rfl)
    · simp [hiface]

/-- Counterexample for C8 as stated: with table ID 1001 and `cidrIdx = 0`
the claim predicts priority `19999 - 0 = 19999`, but the run of
`set_exit_node_impl` installs no rule at 19999 and installs the LAN-to-LAN
exception rule `iif eth0 to 192.168.1.0/24 lookup main` at priority
20000 (= 19999 + 1001 mod 1000 - 0). -/
theorem C8_counterexample :
    ((set_exit_node_impl 2 c8Net "eth0" c8Sys).map (fun sys2 =>
        (sys2.rules.any (fun r => r.priority == 19999),
         sys2.rules.any (fun r =>
           r.priority == 20000 && r.iif == some "eth0" &&
             r.dst == some "192.168.1.0/24" && r.table == none)))) =
      .ok (false, true) := by
  decide

/-- Witness for C8's amended theorem at table 1001, `cidrIdx` 0:
the emitted rule priority is 20000. -/
theorem C8_lan_exception_priority_amended_witness :
    lan_exception_priority 1001 0 = 19999 + 1001 % 1000 - 0 ∧
    (⟨lan_exception_priority 1001 0, none, some "192.168.1.0/24",
        some "eth0", none⟩ : IpRule) ∈
      lanExceptionPhaseOneCidr [] (freshRouterState "192.168.1.0/24") c8Net
        "eth0" "wg0" "10.0.34.0/24" 1001 0 "192.168.1.0/24" :=
  C8_lan_exception_priority_amended (freshRouterState "192.168.1.0/24") c8Net
    "eth0" "wg0" "10.0.34.0/24" "192.168.1.0/24" 1001 0 [] (by decide)


/-! ## Claim C3 -/

theorem sectionAllowedIps_spec (ips : List Ipv4Net) (addr : Ipv4) :
    (∀ s ∈ sectionAllowedIps ips addr, s ≠ "0.0.0.0/0" ∧ s ≠ "default") ∧
      sectionAllowedIps ips addr ≠ [] := by
  unfold sectionAllowedIps
  dsimp only
  by_cases hemp : (ips.filter keepAllowedIp).isEmpty
  · rw [if_pos hemp]
    constructor
    · intro s hs
      simp only [List.map_cons, List.map_nil, List.mem_singleton] at hs
      subst hs
      exact cidrToString_32_ne addr
    · simp
  · rw [if_neg hemp]
    constructor
    · intro s hs
      rw [List.mem_map] at hs
      obtain ⟨ip, hip, hs⟩ := hs
      rw [List.mem_filter] at hip
      have hk := hip.2
      unfold keepAllowedIp at hk
      subst hs
      constructor <;> intro heq <;> simp [heq] at hk
    · intro hnil
      rw [List.map_eq_nil_iff] at hnil
      rw [hnil] at hemp
      simp at hemp

theorem wgPeerSectionsAux_allowed (net : Network) (peer_id : Uuid) :
    ∀ conns secs, wgPeerSectionsAux net peer_id conns = .ok secs →
      ∀ sec ∈ secs, ∃ ips addr, sec.allowed_ips = sectionAllowedIps ips addr := by
  intro conns
  induction conns with
  | nil =>
    intro secs h sec hsec
    simp only [wgPeerSectionsAux, Except.ok.injEq] at h
    rw [← h] at hsec
    simp at hsec
  | cons hd tl ih =>
    intro secs h sec hsec
    obtain ⟨cid, conn⟩ := hd
    simp only [wgPeerSectionsAux] at h
    by_cases h1 : cid.contains peer_id
    · rw [if_neg (by simp [h1])] at h
      by_cases h2 : conn.enabled
      · rw [if_neg (by simp [h2])] at h
        cases hlk : lookupA net.peers
            (if cid.a = peer_id then (cid.b, conn.allowed_ips_a_to_b)
             else (cid.a, conn.allowed_ips_b_to_a)).1 with
        | none => rw [hlk] at h; exact absurd h (by simp)
        | some other =>
          rw [hlk] at h
          cases haux : wgPeerSectionsAux net peer_id tl with
          | error e =>
            rw [haux] at h
            exact absurd h (by simp [Except.bind])
          | ok tl2 =>
            rw [haux] at h
            simp only [Except.bind, Except.ok.injEq] at h
            rw [← h] at hsec
            rcases List.mem_cons.mp hsec with hhead | htail
            · subst hhead
              exact ⟨(if cid.a = peer_id then (cid.b, conn.allowed_ips_a_to_b)
                      else (cid.a, conn.allowed_ips_b_to_a)).2,
                     other.address, rfl⟩
            · exact ih tl2 haux sec htail
      · rw [if_pos (by simp [h2])] at h
        exact ih secs h sec hsec
    · rw [if_pos (by simp [h1])] at h
      exact ih secs h sec hsec

/-- Claim C3: in every WireGuard config text produced by
`get_peer_wg_config` — full or stripped — no `[Peer]` section carries an
`AllowedIPs` entry rendering as `0.0.0.0/0` or `default`, and no
`AllowedIPs` list is empty; moreover whenever the filter empties a
connection's directed allowed-IPs list, exactly the other peer's
`address/32` is emitted in its place. -/
theorem C3_no_default_in_wg_config (net : Network) (peer_id : Uuid)
    (stripped : Bool) (conf : WgConf)
    (hok : get_peer_wg_config net peer_id stripped = .ok conf) :
    (∀ sec ∈ conf.peer_sections,
       (∀ s ∈ sec.allowed_ips, s ≠ "0.0.0.0/0" ∧ s ≠ "default") ∧
         sec.allowed_ips ≠ []) ∧
    (∀ ips addr, ips.filter keepAllowedIp = [] →
       sectionAllowedIps ips addr = [cidrToString ⟨addr, 32⟩]) := by
  constructor
  · intro sec hsec
    have hsections : ∃ secs, wgPeerSectionsAux net peer_id net.connections = .ok secs ∧
        conf.peer_sections = secs := by
      unfold get_peer_wg_config at hok
      cases hlk : lookupA net.peers peer_id with
      | none => rw [hlk] at hok; exact absurd hok (by simp)
      | some this_peer =>
        rw [hlk] at hok
        cases haux : wgPeerSectionsAux net peer_id net.connections with
        | error e =>
          rw [haux] at hok
          exact absurd hok (by simp [Except.bind])
        | ok secs =>
          rw [haux] at hok
          simp only [Except.bind, Except.ok.injEq] at hok
          exact ⟨secs, rfl, by rw [← hok]⟩
    obtain ⟨secs, haux, hconf⟩ := hsections
    rw [hconf] at hsec
    obtain ⟨ips, addr, heq⟩ := wgPeerSectionsAux_allowed net peer_id
      net.connections secs haux sec hsec
    rw [heq]
    exact sectionAllowedIps_spec ips addr
  · intro ips addr hfil
    unfold sectionAllowedIps
    simp [hfil]

theorem C3_no_default_in_wg_config_witness :
    (∀ sec ∈ (WgConf.mk
        ⟨22, none, none, none, none⟩
        [⟨1, 11, 77, ["10.0.34.1/32"], none, none⟩]).peer_sections,
       (∀ s ∈ sec.allowed_ips, s ≠ "0.0.0.0/0" ∧ s ≠ "default") ∧
         sec.allowed_ips ≠ []) ∧
    (∀ ips addr, ips.filter keepAllowedIp = [] →
       sectionAllowedIps ips addr = [cidrToString ⟨addr, 32⟩]) :=
  C3_no_default_in_wg_config c3Net 2 true
    (WgConf.mk ⟨22, none, none, none, none⟩
      [⟨1, 11, 77, ["10.0.34.1/32"], none, none⟩])
    (by decide)


/-! ## Claim C5 -/

theorem runHealth_append (l : List Bool) (b : Bool) :
    runHealth (l ++ [b]) =
      (some (healthStep b (runHealth l).2).1, (healthStep b (runHealth l).2).2) := by
  unfold runHealth
  rw [List.foldl_append]
  simp

theorem trailingFailures_append_true (l : List Bool) :
    trailingFailures (l ++ [true]) = 0 := by
  unfold trailingFailures
  rw [List.reverse_append]
  simp [List.takeWhile_cons]

theorem trailingFailures_append_false (l : List Bool) :
    trailingFailures (l ++ [false]) = trailingFailures l + 1 := by
  unfold trailingFailures
  rw [List.reverse_append]
  simp [List.takeWhile_cons]

theorem runHealth_counter (l : List Bool) :
    (runHealth l).2 = Nat.min (trailingFailures l) U32_MAX := by
  induction l using List.reverseRecOn with
  | nil => simp [runHealth, trailingFailures, U32_MAX]
  | append_singleton l b ih =>
    rw [runHealth_append]
    cases b with
    | true =>
      simp [healthStep, trailingFailures_append_true]
    | false =>
      simp only [healthStep, Bool.false_eq_true, if_false,
        trailingFailures_append_false, ih]
      unfold U32_MAX
      simp only [Nat.min_def]
      split_ifs <;> omega

theorem takeWhile_length_ge_three {p : Bool → Bool} {l : List Bool}
    (h : 3 ≤ (l.takeWhile p).length) :
    ∃ a b c rest, l = a :: b :: c :: rest ∧ p a ∧ p b ∧ p c := by
  cases l with
  | nil => simp at h
  | cons a l1 =>
    by_cases hpa : p a
    · cases l1 with
      | nil => simp [List.takeWhile_cons, hpa] at h
      | cons b l2 =>
        by_cases hpb : p b
        · cases l2 with
          | nil => simp [List.takeWhile_cons, hpa, hpb] at h
          | cons c l3 =>
            by_cases hpc : p c
            · exact ⟨a, b, c, l3, rfl, hpa, hpb, hpc⟩
            · simp [List.takeWhile_cons, hpa, hpb, hpc] at h
        · simp [List.takeWhile_cons, hpa, hpb] at h
    · simp [List.takeWhile_cons, hpa] at h

theorem trailingFailures_ge_three_iff (ps : List Bool) :
    3 ≤ trailingFailures ps ↔ ∃ l, ps = l ++ [false, false, false] := by
  constructor
  · intro h
    unfold trailingFailures at h
    obtain ⟨a, b, c, rest, hrev, hpa, hpb, hpc⟩ := takeWhile_length_ge_three h
    simp only [decide_eq_true_eq] at hpa hpb hpc
    subst hpa
    subst hpb
    subst hpc
    refine ⟨rest.reverse, ?_⟩
    have : ps.reverse.reverse = (false :: false :: false :: rest).reverse := by
      rw [hrev]
    simpa using this
  · intro ⟨l, hl⟩
    subst hl
    unfold trailingFailures
    rw [show l ++ [false, false, false] = (l ++ [false, false]) ++ [false] by simp,
      List.reverse_append]
    simp only [List.reverse_cons, List.reverse_nil, List.nil_append,
      List.cons_append, List.takeWhile_cons]
    rw [show (l ++ [false, false]) = (l ++ [false]) ++ [false] by simp,
      List.reverse_append]
    simp [List.takeWhile_cons]

theorem runHealth_offline_iff (l : List Bool) (b : Bool) :
    ((runHealth (l ++ [b])).1 = some false ↔ 3 ≤ trailingFailures (l ++ [b])) := by
  rw [runHealth_append]
  cases b with
  | true =>
    simp [healthStep, trailingFailures_append_true]
  | false =>
    rw [trailingFailures_append_false]
    have hcnt := runHealth_counter l
    simp only [healthStep, Bool.false_eq_true, if_false, Option.some.injEq]
    rw [hcnt]
    unfold U32_MAX CONSECUTIVE_FAILURES_THRESHOLD
    simp only [Nat.min_def]
    constructor
    · intro h
      have h2 := of_decide_eq_false h
      split_ifs at h2 <;> omega
    · intro h
      apply decide_eq_false
      split_ifs <;> omega

/-- Claim C5: the health monitor (a) reports a peer online after any
successful ping, with the consecutive-failure counter reset to 0; (b) over
any nonempty ping trace from a fresh counter, the last reported status is
offline precisely when the trace ends in three consecutive failures; (c)
the reported packet loss over a nonempty history is exactly
`failed / length * 100` (as exact rational arithmetic); and (d) the ring
buffer never exceeds 60 samples. -/
theorem C5_health_monitor :
    (∀ n, healthStep true n = (true, 0)) ∧
    (∀ pings : List Bool, pings ≠ [] →
      ((runHealth pings).1 = some false ↔
        ∃ l, pings = l ++ [false, false, false])) ∧
    (∀ history : List (Option Nat), history ≠ [] →
      calculate_loss history =
        some (((history.filter (fun r => r.isNone)).length : ℚ)
                / (history.length : ℚ) * 100)) ∧
    (∀ (history : List (Option Nat)) r, history.length ≤ PING_HISTORY_SIZE →
      (pushPingHistory history r).length ≤ PING_HISTORY_SIZE) := by
  refine ⟨?_, ?_, ?_, ?_⟩
  · intro n
    rfl
  · intro pings hne
    rcases List.eq_nil_or_concat pings with hnil | ⟨l, b, hlb⟩
    · exact absurd hnil hne
    · rw [List.concat_eq_append] at hlb
      subst hlb
      rw [runHealth_offline_iff]
      exact trailingFailures_ge_three_iff (l ++ [b])
  · intro history hne
    unfold calculate_loss
    rw [if_neg (by simpa [List.isEmpty_iff] using hne)]
  · intro history r hlen
    unfold pushPingHistory
    dsimp only
    rw [List.length_drop]
    unfold PING_HISTORY_SIZE at *
    simp
    omega

/-- Witness for C5: a success resets the counter; the trace
`[true, false, false, false]` is reported offline; the loss over
`[some 5, none]` is 50%; pushing into a full 60-sample buffer keeps 60. -/
theorem C5_health_monitor_witness :
    healthStep true 2 = (true, 0) ∧
    (runHealth [true, false, false, false]).1 = some false ∧
    calculate_loss [some 5, none] = some ((1 : ℚ) / 2 * 100) ∧
    (pushPingHistory (List.replicate 60 none) (some 1)).length ≤ 60 := by
  refine ⟨C5_health_monitor.1 2, ?_, ?_, ?_⟩
  · exact (C5_health_monitor.2.1 [true, false, false, false] (by decide)).mpr
      ⟨[true], rfl⟩
  · rw [C5_health_monitor.2.2.1 [some 5, none] (by decide)]
    norm_num
  · exact C5_health_monitor.2.2.2 (List.replicate 60 none) (some 1)
      (by simp [PING_HISTORY_SIZE])


/-! ## Claim C9 -/

theorem exceptBind_ok {ε α β : Type} (a : α) (f : α → Except ε β) :
    (Except.ok a : Except ε α) >>= f = f a := rfl

theorem exceptBind_err {ε α β : Type} (e : ε) (f : α → Except ε β) :
    (Except.error e : Except ε α) >>= f = Except.error e := rfl

/-- Counterexample for C9 as stated: adding a peer at an address carrying
an unexpired reservation for a different `peer_id` is rejected without
adding the peer, but with `Forbidden` (HTTP 403), not `Conflict`
(HTTP 409). -/
theorem C9_counterexample :
    (patch_network_config 50 (fun _ => 99) c9ChangeSum c9Net).1 =
      .error (.Forbidden "address is reserved for another peer_id") ∧
    HttpError.status (.Forbidden "address is reserved for another peer_id") =
      403 ∧
    lookupA (patch_network_config 50 (fun _ => 99) c9ChangeSum c9Net).2.peers
      3 = none := by
  refine ⟨by decide, rfl, by decide⟩

/-- Claim C9 (amended): for every ChangeSum whose added peer targets an
address carrying an unexpired reservation for a different `peer_id`, the
handler rejects the request without adding the peer — with HTTP 403
(`Forbidden`), not 409. -/
theorem C9_reserved_address_rejected (now : Nat) (generated_key : Uuid → Nat)
    (cs : ChangeSum) (net : Network) (pid : Uuid) (d : AddedPeer)
    (resv : ReservationData)
    (hcf : cs.changed_fields = none)
    (hap : cs.added_peers = some [(pid, d)])
    (hpid : lookupA (remove_expired_reservations net now).peers pid = none)
    (hres : lookupA (remove_expired_reservations net now).reservations
      d.address = some resv)
    (hother : resv.peer_id ≠ pid) :
    patch_network_config now generated_key cs net =
      (.error (.Forbidden "address is reserved for another peer_id"),
       remove_expired_reservations net now) ∧
    HttpError.status (.Forbidden "address is reserved for another peer_id") =
      403 ∧
    lookupA (patch_network_config now generated_key cs net).2.peers pid =
      none := by
  have hstep : ∀ tp : Uuid,
      processAddedPeers tp generated_key now [(pid, d)]
        (remove_expired_reservations net now, false) =
      .error (.Forbidden "address is reserved for another peer_id",
        remove_expired_reservations net now) := by
    intro tp
    unfold processAddedPeers patchAddedPeer
    rw [hpid, hres]
    simp only [Option.isSome_none, Bool.false_eq_true, if_false]
    rw [if_pos hother]
  have hmain : patch_network_config now generated_key cs net =
      (.error (.Forbidden "address is reserved for another peer_id"),
       remove_expired_reservations net now) := by
    unfold patch_network_config
    rw [hcf, hap]
    simp only [hstep, exceptBind_ok, exceptBind_err]
  refine ⟨hmain, rfl, ?_⟩
  rw [hmain]
  exact hpid

/-- Witness for C9's amended theorem at the concrete reserved-address
network: the request fails with the 403 error and peer 3 is absent. -/
theorem C9_reserved_address_rejected_witness :
    patch_network_config 50 (fun _ => 99) c9ChangeSum c9Net =
      (.error (.Forbidden "address is reserved for another peer_id"),
       remove_expired_reservations c9Net 50) ∧
    HttpError.status (.Forbidden "address is reserved for another peer_id") =
      403 ∧
    lookupA (patch_network_config 50 (fun _ => 99) c9ChangeSum c9Net).2.peers
      3 = none :=
  C9_reserved_address_rejected 50 (fun _ => 99) c9ChangeSum c9Net 3
    { name := "new"
      address := 167780867
      endpoint := { enabled := false, address := .none }
      kind := "laptop"
      icon := ""
      dns := { enabled := false, addresses := [] }
      mtu := { enabled := false, value := 0 }
      scripts := { pre_up := [], post_up := [], pre_down := [], post_down := [] }
      private_key := none }
    ⟨7, 100⟩ rfl (by decide) (by decide) (by decide) (by decide)


/-! ## Claim C2 -/

/-- Claim C2: after a successful `set_exit_node_impl P` on a network where
`P` is a non-`this_peer` peer holding a routing table, the persisted
`prefix_active_backup["0.0.0.0/0"]` names `P` active with every other
default-route peer as backup; the wg entry of `P` is exactly
`newExitAllowedIps`, which contains `0.0.0.0/0`; and a previous exit node
with a different key is rewritten to `oldExitAllowedIps`, which keeps its
own `address/32` but no longer contains `0.0.0.0/0`. -/
theorem C2_set_exit_node (net : Network) (sys : Sys) (st : ModeState)
    (P tid : Nat) (pNew : Peer) (lan_interface : String)
    (hms : sys.modeState = some st)
    (htid : lookupA st.peer_table_ids P = some tid)
    (hp : lookupA net.peers P = some pNew)
    (_hPne : P ≠ net.this_peer) :
    ∃ sys2, set_exit_node_impl P net lan_interface sys = .ok sys2 ∧
      (∃ st2, sys2.modeState = some st2 ∧
        lookupA st2.prefix_active_backup "0.0.0.0/0" =
          some ⟨P, (get_peers_with_default_route net).filter
            (fun q => q ≠ P)⟩) ∧
      lookupA sys2.wgAllowedIps
          (wg_public_key_from_private_key pNew.private_key) =
        some (newExitAllowedIps net P pNew) ∧
      "0.0.0.0/0" ∈ newExitAllowedIps net P pNew ∧
      ∀ ps pOld,
        lookupA st.prefix_active_backup "0.0.0.0/0" = some ps →
        ps.active_peer_id ≠ P →
        lookupA net.peers ps.active_peer_id = some pOld →
        wg_public_key_from_private_key pOld.private_key ≠
          wg_public_key_from_private_key pNew.private_key →
        lookupA sys2.wgAllowedIps
            (wg_public_key_from_private_key pOld.private_key) =
          some (oldExitAllowedIps net ps.active_peer_id pOld) ∧
        "0.0.0.0/0" ∉ oldExitAllowedIps net ps.active_peer_id pOld ∧
        addr32String pOld.address ∈
          oldExitAllowedIps net ps.active_peer_id pOld := by
  unfold set_exit_node_impl
  rw [hms]
  dsimp only
  rw [htid]
  dsimp only
  rw [hp]
  dsimp only
  refine ⟨_, rfl, ⟨_, rfl, lookupA_insertA_self _ _ _⟩, ?_, ?_, ?_⟩
  · exact lookupA_insertA_self _ _ _
  · unfold newExitAllowedIps
    dsimp only
    exact List.mem_append_right _ (List.mem_singleton.mpr rfl)
  · intro ps pOld hps hne hpold hkne
    refine ⟨?_, ?_, ?_⟩
    · unfold wgSet
      rw [lookupA_insertA_ne _ _ _ _ hkne, hps]
      simp only [Option.map_some, Option.map_some', Option.map]
      rw [if_pos hne, hpold]
      exact lookupA_insertA_self _ _ _
    · unfold oldExitAllowedIps
      dsimp only
      intro hmem
      rw [List.mem_cons] at hmem
      rcases hmem with hhd | htl
      · exact (addr32String_ne pOld.address).1 hhd.symm
      · cases hconn : routerConnFor net ps.active_peer_id with
        | none => rw [hconn] at htl; simp at htl
        | some ips =>
          rw [hconn] at htl
          rw [List.mem_filter] at htl
          simp at htl
    · unfold oldExitAllowedIps
      dsimp only
      exact List.mem_cons_self _ _

/-- Witness for C2 at a concrete three-peer network: switching the exit
node from peer 3 (table 1002) to peer 2 (table 1001). -/
theorem C2_set_exit_node_witness :
    ∃ sys2, set_exit_node_impl 2 c2Net "eth0" c2Sys = .ok sys2 ∧
      (∃ st2, sys2.modeState = some st2 ∧
        lookupA st2.prefix_active_backup "0.0.0.0/0" =
          some ⟨2, (get_peers_with_default_route c2Net).filter
            (fun q => q ≠ 2)⟩) ∧
      lookupA sys2.wgAllowedIps (wg_public_key_from_private_key 22) =
        some (newExitAllowedIps c2Net 2 (plainPeer "exitTwo" 167780866 22)) ∧
      "0.0.0.0/0" ∈ newExitAllowedIps c2Net 2
        (plainPeer "exitTwo" 167780866 22) ∧
      (lookupA sys2.wgAllowedIps (wg_public_key_from_private_key 33) =
          some (oldExitAllowedIps c2Net 3
            (plainPeer "exitThree" 167780867 33)) ∧
        "0.0.0.0/0" ∉ oldExitAllowedIps c2Net 3
          (plainPeer "exitThree" 167780867 33) ∧
        addr32String 167780867 ∈ oldExitAllowedIps c2Net 3
          (plainPeer "exitThree" 167780867 33)) := by
  obtain ⟨sys2, h1, h2, h3, h4, h5⟩ :=
    C2_set_exit_node c2Net c2Sys c2St 2 1001
      (plainPeer "exitTwo" 167780866 22) "eth0" rfl (by decide) (by decide)
      (by decide)
  exact ⟨sys2, h1, h2, h3, h4,
    h5 ⟨3, []⟩ (plainPeer "exitThree" 167780867 33) (by decide) (by decide)
      (by decide) (by decide)⟩


/-! ## Claim C1 -/

/-- Claim C1 (refuted by evaluation): a patch renaming peer 2 (the rename
is valid) and moving it to the out-of-subnet address `0.0.0.0` returns 400
from the address validator, yet the in-memory network keeps the
already-applied rename — `patch_network_config` mutates the shared model in
place and performs no rollback on validation failure. -/
theorem C1_patch_not_atomic :
    (patch_network_config 50 (fun _ => 99) c1ChangeSum c9Net).1 =
      .error (.BadRequest
        "changed_fields.peers.address: address not in network subnet") ∧
    HttpError.status (.BadRequest
        "changed_fields.peers.address: address not in network subnet") =
      400 ∧
    (lookupA (patch_network_config 50 (fun _ => 99) c1ChangeSum c9Net).2.peers
        2).map Peer.name = some "renamed" ∧
    (patch_network_config 50 (fun _ => 99) c1ChangeSum c9Net).2 ≠ c9Net := by
  refine ⟨by decide, rfl, by decide, by decide⟩

end WgQuickrs
